import Mathlib

/-!
Verification development for the forthchan toolchain: a shallow embedding of
`isa.py`, `machine.py` and `translator.py` into Lean 4, together with theorems
settling a list of claims about the system.

Conventions of the embedding:
* Python machine integers are arbitrary-precision, so they are modelled by `Int`.
* The data memory (a Python list of cells that each hold either an integer or
  an `Instruction` object) is modelled as a total function `Int → Cell`;
  every run considered in this file only ever indexes inside the allocated
  range, where Python list indexing agrees with the function model.
* Python statements `assert <non-empty string literal>` are no-ops (a non-empty
  string is truthy), and are modelled as no-ops; genuine failures
  (`assert cond, msg` with `cond` false, `list.pop()` / `list[-1]` on an empty
  list, indexing `code[None]`, a missing dictionary key) are modelled by
  `Except.error`.
* `match` branches that `raise` inside the machine's latch helpers are
  unreachable from the control unit's call sites; they are modelled as leaving
  the state unchanged.  Branches of a Python `match` that silently fall through
  (no `case _:`) are modelled as leaving the state unchanged as well, which is
  exactly the Python behaviour.
-/

namespace Forthchan

/-! ### isa.py -/

/-- Opcode universe, from `isa.py` (`class Opcode`). -/
inductive Opcode where
  | sum | diff | div | mul | mod | eq | neq | less | gr | le | ge
  | shift_back | shift_back_ret
  | put | put_absolute | pick | pick_absolute | swap
  | push_to_ret | pop_to_ret | push_to_od | pop_to_od
  | number | jmp | exec_if | exec_cond_jmp | exec_cond_jmp_ret
  | dup_ret | dup | dudup
  | increment_ret | decrement_ret
  | jmp_pop_pra_shp | push_inc_inc_ip_to_pra_shp
  | eq_not_consuming_ret
  | read_vardata | write_vardata
  | read_vardata_user_link | write_vardata_user_link
  | sum_top_with_vdsp
  | write_port | has_port_filled_with_cpu | read_port | has_port_filled_with_device
  | halt
  deriving DecidableEq, Repr

/-- Source-location breadcrumb, from `isa.py` (`class Term`). -/
structure Term where
  line_number : Int
  line_position : Int
  name : String
  deriving DecidableEq, Repr

/-- A machine instruction, from `isa.py` (`class Instruction`). -/
structure Instruction where
  index : Int
  opcode : Opcode
  arg : Option Int
  term : Term
  deriving DecidableEq, Repr

/-- An anonymous source term used where the Python code passes a fresh `Term`. -/
def noTerm : Term := ⟨-1, -1, ""⟩

/-- The argument of an instruction where the machine reads it unconditionally
(`instruction.arg` in Python is always present at those sites). -/
def Instruction.argD (i : Instruction) : Int := i.arg.getD 0

/-! ### machine.py: ports and memory cells -/

/-- A memory-mapped port, from `machine.py` (`class Port`). -/
structure Port where
  filled_with_device : Bool
  filled_with_cpu : Bool
  data : Int
  deriving DecidableEq, Repr

/-- The initial state of a port (`Port` class attributes). -/
def Port.init : Port := ⟨false, false, 0⟩

/-- One data-memory cell: Python stores either an `int` or an `Instruction`
object in `data_memory`. -/
inductive Cell where
  | num (n : Int)
  | instr (i : Instruction)
  deriving DecidableEq, Repr

/-- Read a cell as an integer.  In Python, using an `Instruction` cell in an
arithmetic context would raise; all runs considered here read integers, so the
default `0` is never exercised. -/
def Cell.toInt : Cell → Int
  | .num n => n
  | .instr _ => 0

/-- Read a cell as an instruction (`data_memory[ip]` at a fetch site).  In
Python a non-`Instruction` cell would raise at the attribute access; the
default is never exercised in the runs considered here. -/
def Cell.toInstr : Cell → Instruction
  | .instr i => i
  | .num _ => ⟨0, Opcode.halt, none, noTerm⟩

/-- The data memory: Python's flat list of cells. -/
abbrev Memory : Type := List Cell

/-- A memory read, `data_memory[i]`.  Every run considered here stays inside
the allocated range, where this agrees with Python list indexing (Python's
negative-index wrap-around and its IndexError are never exercised). -/
def memGet (m : Memory) (i : Int) : Cell :=
  if i < 0 then .num 0 else m.getD i.toNat (.num 0)

/-- A memory write, `data_memory[i] = v` (same in-range proviso). -/
def memSet (m : Memory) (i : Int) (v : Cell) : Memory :=
  if i < 0 then m else m.set i.toNat v

/-- Port lookup, `self.ports[n]` (always in range in the runs considered). -/
def getPort (ports : List Port) (n : Int) : Port :=
  ports.getD n.toNat Port.init

/-- Port update, mutation of `self.ports[n]`. -/
def setPort (ports : List Port) (n : Int) (p : Port) : List Port :=
  ports.set n.toNat p

/-! ### machine.py: the data path -/

/-- Latch-input selector, from `machine.py` (`class LatchInput`). -/
inductive LatchInput where
  | top | ip_minus_top | ip_plus_arg | ip_inc | ip_conv_sig_sum_inc
  | od_shp_inc | od_shp_dec | od_shp_minus_two
  | pra_shp_inc | pra_shp_dec
  | alu_out | next_out | port_value
  | has_port_filled_with_device | has_device_filled_with_cpu
  | false_sig | true_sig
  | ma_minus_one_out | ma_out
  | isn_inc | one | arg | ip_plus_two
  | od_shp | pra_shp | od_shp_minus_top_dec | od_shp_minus_top_and_two
  | ip | vdsp_plus_arg | vdsp_plus_top
  deriving DecidableEq, Repr

/-- `signal_convert` from `machine.py`. -/
def signal_convert (input_number : Int) : Int :=
  if input_number = 0 then 1 else 0

/-- Snapshot of the registers taken at the top of each tick
(`DataPath.RegsState`). -/
structure RegsState where
  ip : Int
  od_shp : Int
  pra_shp : Int
  top : Int
  next : Int
  deriving DecidableEq, Repr

/-- The data path state, from `machine.py` (`class DataPath`).  The Python
class initialises `top`/`next` to the placeholder string "None"; any arithmetic
on that placeholder would raise, and every run considered here overwrites the
registers before an observable use, so they are modelled as starting at 0. -/
structure DataPath where
  data_memory : Memory
  instruction_pointer : Int
  top : Int
  next : Int
  pra_shp_pointer : Int
  od_stack_start : Int
  od_sh_pointer : Int
  instruction_stage_number : Int
  ports : List Port
  var_data_start_point : Int
  cur_tick_regs_state : RegsState
  deriving DecidableEq, Repr

/-- `RegsState.save`, called at the top of `next_tick_execute`. -/
def saveRegs (dp : DataPath) : DataPath :=
  { dp with cur_tick_regs_state :=
      ⟨dp.instruction_pointer, dp.od_sh_pointer, dp.pra_shp_pointer, dp.top, dp.next⟩ }

/-- `DataPath.latch_ip`. -/
def latch_ip (dp : DataPath) (instruction : Instruction) (latch_input : LatchInput) : DataPath :=
  let s := dp.cur_tick_regs_state
  match latch_input with
  | .top => { dp with instruction_pointer := s.top }
  | .ip_conv_sig_sum_inc =>
    let top_conv_sig : Int := if s.top = 0 then 1 else 0
    let pra_ma_out_conv_sig : Int := if (memGet dp.data_memory s.pra_shp).toInt = 0 then 1 else 0
    match instruction.opcode with
    | .exec_if =>
        { dp with instruction_pointer := dp.instruction_pointer + 1 + top_conv_sig }
    | .exec_cond_jmp =>
        { dp with instruction_pointer :=
            dp.instruction_pointer + 1 + (if top_conv_sig = 1 then 0 else instruction.argD) }
    | .exec_cond_jmp_ret =>
        { dp with instruction_pointer :=
            dp.instruction_pointer + 1 + (if pra_ma_out_conv_sig = 1 then 0 else instruction.argD) }
    | _ => dp  -- Python: raise "fatal" (unreachable from the control unit)
  | .ip_minus_top => { dp with instruction_pointer := dp.instruction_pointer - s.top }
  | .ip_plus_arg => { dp with instruction_pointer := dp.instruction_pointer + instruction.argD }
  | .ip_inc => { dp with instruction_pointer := dp.instruction_pointer + 1 }
  | _ => dp  -- Python: raise "fatal" (unreachable from the control unit)

/-- `DataPath.latch_od_shp`. -/
def latch_od_shp (dp : DataPath) (_instruction : Instruction) (latch_input : LatchInput) : DataPath :=
  match latch_input with
  | .od_shp_inc => { dp with od_sh_pointer := dp.od_sh_pointer + 1 }
  | .od_shp_dec => { dp with od_sh_pointer := dp.od_sh_pointer - 1 }
  | .od_shp_minus_two => { dp with od_sh_pointer := dp.od_sh_pointer - 2 }
  | _ => dp  -- Python: raise "fatal" (unreachable from the control unit)

/-- `DataPath.latch_pra_shp`. -/
def latch_pra_shp (dp : DataPath) (_instruction : Instruction) (latch_input : LatchInput) : DataPath :=
  match latch_input with
  | .pra_shp_inc => { dp with pra_shp_pointer := dp.pra_shp_pointer + 1 }
  | .pra_shp_dec => { dp with pra_shp_pointer := dp.pra_shp_pointer - 1 }
  | _ => dp  -- Python: raise "fatal" (unreachable from the control unit)

/-- `DataPath.latch_top`. -/
def latch_top (dp : DataPath) (instruction : Instruction) (latch_input : LatchInput) : DataPath :=
  let s := dp.cur_tick_regs_state
  let port_num := instruction.argD
  match latch_input with
  | .alu_out =>
    match instruction.opcode with
    | .sum => { dp with top := s.next + s.top }
    | .diff => { dp with top := s.next - s.top }
    | .div => { dp with top := Int.fdiv s.next s.top }    -- Python floor division
    | .mul => { dp with top := s.next * s.top }
    | .mod => { dp with top := Int.fmod s.next s.top }    -- Python modulo
    | .eq => { dp with top := if s.next = s.top then 0 else -1 }
    | .neq => { dp with top := if s.next ≠ s.top then 0 else -1 }
    | .less => { dp with top := if s.next < s.top then 0 else -1 }
    | .gr => { dp with top := if s.next > s.top then 0 else -1 }
    | .le => { dp with top := if s.next ≤ s.top then 0 else -1 }
    | .ge => { dp with top := if s.next ≥ s.top then 0 else -1 }
    | .shift_back => { dp with top := s.next }
    | .eq_not_consuming_ret =>
      match dp.instruction_stage_number with
      | 1 => { dp with top :=
          if (memGet dp.data_memory (s.pra_shp + 1)).toInt = (memGet dp.data_memory s.pra_shp).toInt
          then 0 else -1 }
      | 3 => { dp with top := (memGet dp.data_memory s.od_shp).toInt }
      | _ => dp  -- Python: raise "fatal"
    | _ => dp  -- Python: raise "fatal"
  | .has_device_filled_with_cpu =>
      { dp with top := if (getPort dp.ports port_num).filled_with_cpu then 0 else -1 }
  | .has_port_filled_with_device =>
      { dp with top := if (getPort dp.ports port_num).filled_with_device then 0 else -1 }
  | .next_out => { dp with top := s.next }
  | .ma_out =>
    match instruction.opcode with
    | .put | .put_absolute => { dp with top := (memGet dp.data_memory s.od_shp).toInt }
    | .pick => { dp with top := (memGet dp.data_memory (s.od_shp - s.top - 1)).toInt }
    | .pick_absolute => { dp with top := (memGet dp.data_memory s.top).toInt }
    | .push_to_od => { dp with top := (memGet dp.data_memory s.pra_shp).toInt }
    | .dup_ret | .increment_ret | .decrement_ret =>
      match dp.instruction_stage_number with
      | 1 => { dp with top := (memGet dp.data_memory s.pra_shp).toInt }
      | 3 => { dp with top := (memGet dp.data_memory s.od_shp).toInt }
      | _ => dp  -- Python: raise "fatal"
    | .jmp_pop_pra_shp =>
      match dp.instruction_stage_number with
      | 1 => { dp with top := (memGet dp.data_memory s.pra_shp).toInt }
      | 2 => { dp with top := (memGet dp.data_memory s.od_shp).toInt }
      | _ => dp  -- Python: raise "fatal"
    | .read_vardata =>
        { dp with top := (memGet dp.data_memory (dp.var_data_start_point + instruction.argD)).toInt }
    | _ => dp  -- Python match with no matching case: silently does nothing
  | .arg => { dp with top := instruction.argD }
  | .vdsp_plus_top => { dp with top := dp.var_data_start_point + s.top }
  | .port_value => { dp with top := (getPort dp.ports instruction.argD).data }
  | _ => dp  -- Python: raise "fatal" (unreachable from the control unit)

/-- `DataPath.latch_next`. -/
def latch_next (dp : DataPath) (instruction : Instruction) (latch_input : LatchInput) : DataPath :=
  let s := dp.cur_tick_regs_state
  match latch_input with
  | .top => { dp with next := s.top }
  | .ma_minus_one_out =>
    match instruction.opcode with
    | .put | .put_absolute => { dp with next := (memGet dp.data_memory (s.top - 1)).toInt }
    | .push_to_od => { dp with next := (memGet dp.data_memory (s.od_shp - 1)).toInt }
    | .exec_if | .exec_cond_jmp => { dp with next := (memGet dp.data_memory (s.od_shp - 1 - 1)).toInt }
    | .write_vardata | .write_port => { dp with next := (memGet dp.data_memory (s.od_shp - 1 - 1)).toInt }
    | .pop_to_ret => { dp with next := (memGet dp.data_memory (s.od_shp - 1)).toInt }
    | _ => dp  -- Python: raise instruction.opcode (unreachable from the control unit)
  | .ma_out =>
    match instruction.opcode with
    | .sum | .diff | .div | .mul | .mod | .eq | .neq | .less | .gr | .le | .ge =>
        { dp with next := (memGet dp.data_memory (s.od_shp - 2)).toInt }
    | .shift_back => { dp with next := (memGet dp.data_memory (s.od_shp - 1)).toInt }
    | _ => dp  -- Python match with no matching case: silently does nothing
  | _ => dp  -- Python: raise "fatal" (unreachable from the control unit)

/-- `DataPath.top_latch_on_memory_data`. -/
def top_latch_on_memory_data (dp : DataPath) (instruction : Instruction) : DataPath :=
  let s := dp.cur_tick_regs_state
  match instruction.opcode with
  | .sum | .diff | .div | .mul | .mod | .eq | .neq | .less | .gr | .le | .ge =>
      { dp with data_memory := memSet dp.data_memory s.od_shp (.num s.top) }
  | .pick | .pick_absolute =>
      { dp with data_memory := memSet dp.data_memory s.od_shp (.num s.top) }
  | .swap =>
    match dp.instruction_stage_number with
    | 1 => { dp with data_memory := memSet dp.data_memory (s.od_shp - 1) (.num s.top) }
    | 2 => { dp with data_memory := memSet dp.data_memory s.od_shp (.num s.top) }
    | _ => dp  -- Python match with no matching case: silently does nothing
  | .pop_to_ret =>
      { dp with data_memory := memSet dp.data_memory (s.pra_shp - 1) (.num s.top) }
  | .push_to_od =>
      { dp with data_memory := memSet dp.data_memory s.od_shp (.num s.top) }
  | .dup_ret =>
      { dp with data_memory := memSet dp.data_memory (s.pra_shp + 1) (.num s.top) }
  | .dup =>
      { dp with data_memory := memSet dp.data_memory (s.od_shp + 1) (.num s.top) }
  | .dudup =>
      { dp with data_memory := memSet dp.data_memory (s.od_shp + 1) (.num s.top) }
  | .eq_not_consuming_ret =>
      { dp with data_memory := memSet dp.data_memory s.pra_shp (.num s.top) }
  | .write_vardata =>
      { dp with data_memory := memSet dp.data_memory (dp.var_data_start_point + instruction.argD) (.num s.top) }
  | .read_vardata =>
      { dp with data_memory := memSet dp.data_memory (s.od_shp + 1) (.num s.top) }
  | _ => dp  -- Python: raise "fatal" (unreachable from the control unit)

/-- `DataPath.next_latch_on_memory_data`. -/
def next_latch_on_memory_data (dp : DataPath) (instruction : Instruction) : DataPath :=
  let s := dp.cur_tick_regs_state
  match instruction.opcode with
  | .put =>
      { dp with data_memory := memSet dp.data_memory (s.od_shp - s.top - 2) (.num s.next) }
  | .put_absolute =>
      { dp with data_memory := memSet dp.data_memory s.top (.num s.next) }
  | .dudup =>
      { dp with data_memory := memSet dp.data_memory (s.od_shp + 1) (.num s.next) }
  | _ => dp  -- Python: raise "fatal" (unreachable from the control unit)

/-- `DataPath.port_latch_on_memory_data`.  Note: the Python branch for
`HAS_PORT_FILLED_WITH_DEVICE` reads `filled_with_cpu`. -/
def port_latch_on_memory_data (dp : DataPath) (instruction : Instruction)
    (latch_input : LatchInput) : DataPath :=
  let s := dp.cur_tick_regs_state
  match latch_input with
  | .has_device_filled_with_cpu =>
      { dp with data_memory := memSet dp.data_memory (s.od_shp + 1) (.num (if (getPort dp.ports instruction.argD).filled_with_cpu then 0 else -1)) }
  | .has_port_filled_with_device =>
      { dp with data_memory := memSet dp.data_memory (s.od_shp + 1) (.num (if (getPort dp.ports instruction.argD).filled_with_cpu then 0 else -1)) }
  | .port_value =>
      { dp with data_memory := memSet dp.data_memory (s.od_shp + 1) (.num (getPort dp.ports instruction.argD).data) }
  | _ => dp  -- Python: raise "fatal" (unreachable from the control unit)

/-- `DataPath.latch_memory_data`. -/
def latch_memory_data (dp : DataPath) (instruction : Instruction)
    (latch_input : LatchInput) : DataPath :=
  let s := dp.cur_tick_regs_state
  match latch_input with
  | .has_port_filled_with_device | .has_device_filled_with_cpu | .port_value =>
      port_latch_on_memory_data dp instruction latch_input
  | .arg =>
      { dp with data_memory := memSet dp.data_memory (s.od_shp + 1) (.num instruction.argD) }
  | .top => top_latch_on_memory_data dp instruction
  | .next_out => next_latch_on_memory_data dp instruction
  | .alu_out =>
    match instruction.opcode with
    | .increment_ret =>
        { dp with data_memory := memSet dp.data_memory s.pra_shp (.num (s.top + 1)) }
    | .decrement_ret =>
        { dp with data_memory := memSet dp.data_memory s.pra_shp (.num (s.top - 1)) }
    | _ => dp  -- Python: raise "fatal" (unreachable from the control unit)
  | .ip_plus_two =>
      { dp with data_memory := memSet dp.data_memory (s.pra_shp - 1) (.num (s.ip + 2)) }
  | .vdsp_plus_top =>
      { dp with data_memory := memSet dp.data_memory s.od_shp (.num (dp.var_data_start_point + s.top)) }
  | _ => dp  -- Python: raise "fatal" (unreachable from the control unit)

/-- `DataPath.signal_increment_instruction_stage_number`. -/
def signal_increment_instruction_stage_number (dp : DataPath) : DataPath :=
  { dp with instruction_stage_number := dp.instruction_stage_number + 1 }

/-- `DataPath.signal_reset_instruction_stage_number`. -/
def signal_reset_instruction_stage_number (dp : DataPath) : DataPath :=
  { dp with instruction_stage_number := 1 }

/-- `DataPath.latch_port_flags`. -/
def latch_port_flags (dp : DataPath) (instruction : Instruction)
    (latch_input : LatchInput) : DataPath :=
  let port_number := instruction.argD
  match instruction.opcode, latch_input with
  | .write_port, .true_sig =>
      { dp with ports := setPort dp.ports port_number { getPort dp.ports port_number with filled_with_cpu := true } }
  | .read_port, .false_sig =>
      { dp with ports := setPort dp.ports port_number { getPort dp.ports port_number with filled_with_device := false } }
  | _, _ => dp  -- Python: raise "fatal exception" (unreachable from the control unit)

/-- `DataPath.latch_port_value`. -/
def latch_port_value (dp : DataPath) (instruction : Instruction)
    (latch_input : LatchInput) : DataPath :=
  match instruction.opcode, latch_input with
  | .write_port, .top =>
      { dp with ports := setPort dp.ports instruction.argD { getPort dp.ports instruction.argD with data := dp.cur_tick_regs_state.top } }
  | _, _ => dp  -- Python: raise "fatal exception" (unreachable from the control unit)

/-! ### machine.py: the control unit -/

/-- The control unit state, from `machine.py` (`class ControlUnit`). -/
structure ControlUnit where
  data_path : DataPath
  is_in_interruption : Bool
  ticks_counter : Int
  instructions_counter : Int
  deriving DecidableEq, Repr

/-- `ControlUnit.current_instruction`. -/
def current_instruction (cu : ControlUnit) : Instruction :=
  (memGet cu.data_path.data_memory cu.data_path.instruction_pointer).toInstr

/-- `ControlUnit.full_data_instractions_exec` (name kept, with the source's
spelling).  Returns the updated data path and `is_last_instruction_tick`. -/
def full_data_instractions_exec (dp : DataPath) (i : Instruction) : DataPath × Bool :=
  match i.opcode with
  | .number =>
    let dp := latch_next dp i .top
    let dp := latch_memory_data dp i .arg
    let dp := latch_top dp i .arg
    let dp := latch_od_shp dp i .od_shp_inc
    let dp := latch_ip dp i .ip_inc
    (dp, true)
  | .sum | .diff | .div | .mul | .mod | .eq | .neq | .less | .gr | .le | .ge =>
    match dp.instruction_stage_number with
    | 1 =>
      let dp := latch_top dp i .alu_out
      let dp := latch_next dp i .ma_out
      let dp := latch_od_shp dp i .od_shp_dec
      (dp, false)
    | 2 =>
      let dp := latch_memory_data dp i .top
      let dp := latch_ip dp i .ip_inc
      (dp, true)
    | _ => (dp, false)  -- Python: raise "fatal exception" (unreachable)
  | .shift_back =>
    let dp := latch_top dp i .next_out
    let dp := latch_next dp i .ma_out
    let dp := latch_od_shp dp i .od_shp_dec
    let dp := latch_ip dp i .ip_inc
    (dp, true)
  | .put | .put_absolute =>
    match dp.instruction_stage_number with
    | 1 =>
      let dp := latch_memory_data dp i .next_out
      let dp := latch_od_shp dp i .od_shp_minus_two
      (dp, false)
    | 2 =>
      let dp := latch_top dp i .ma_out
      let dp := latch_next dp i .ma_minus_one_out
      let dp := latch_ip dp i .ip_inc
      (dp, true)
    | _ => (dp, false)  -- Python: raise "fatal exception" (unreachable)
  | .pick | .pick_absolute =>
    match dp.instruction_stage_number with
    | 1 => (latch_top dp i .ma_out, false)
    | 2 =>
      let dp := latch_memory_data dp i .top
      let dp := latch_ip dp i .ip_inc
      (dp, true)
    | _ => (dp, false)  -- Python: raise "fatal exception" (unreachable)
  | .swap =>
    match dp.instruction_stage_number with
    | 1 =>
      let dp := latch_next dp i .top
      let dp := latch_top dp i .next_out
      let dp := latch_memory_data dp i .top
      (dp, false)
    | 2 =>
      let dp := latch_memory_data dp i .top
      let dp := latch_ip dp i .ip_inc
      (dp, true)
    | _ => (dp, false)  -- Python: raise "fatal exception" (unreachable)
  | _ => (dp, false)  -- Python: raise "fatal exception" (unreachable)

/-- `ControlUnit.pra_maniputation_instractions_exec` (source spelling kept). -/
def pra_maniputation_instractions_exec (dp : DataPath) (i : Instruction) : DataPath × Bool :=
  match i.opcode with
  | .push_inc_inc_ip_to_pra_shp =>
    let dp := latch_memory_data dp i .ip_plus_two
    let dp := latch_pra_shp dp i .pra_shp_dec
    let dp := latch_ip dp i .ip_inc
    (dp, true)
  | .increment_ret | .decrement_ret =>
    match dp.instruction_stage_number with
    | 1 => (latch_top dp i .ma_out, false)
    | 2 => (latch_memory_data dp i .alu_out, false)
    | 3 =>
      let dp := latch_top dp i .ma_out
      let dp := latch_ip dp i .ip_inc
      (dp, true)
    | _ => (dp, false)  -- Python: raise "fatal exception" (unreachable)
  | .eq_not_consuming_ret =>
    match dp.instruction_stage_number with
    | 1 =>
      let dp := latch_top dp i .alu_out
      let dp := latch_pra_shp dp i .pra_shp_dec
      (dp, false)
    | 2 => (latch_memory_data dp i .top, false)
    | 3 =>
      let dp := latch_top dp i .ma_out
      let dp := latch_ip dp i .ip_inc
      (dp, true)
    | _ => (dp, false)  -- Python: raise "fatal exception" (unreachable)
  | .pop_to_ret =>
    match dp.instruction_stage_number with
    | 1 =>
      let dp := latch_memory_data dp i .top
      let dp := latch_pra_shp dp i .pra_shp_dec
      let dp := latch_top dp i .next_out
      let dp := latch_od_shp dp i .od_shp_dec
      (dp, false)
    | 2 =>
      let dp := latch_next dp i .ma_minus_one_out
      let dp := latch_ip dp i .ip_inc
      (dp, true)
    | _ => (dp, false)  -- Python: raise "fatal exception" (unreachable)
  | .push_to_od =>
    match dp.instruction_stage_number with
    | 1 =>
      let dp := latch_top dp i .ma_out
      let dp := latch_od_shp dp i .od_shp_inc
      (dp, false)
    | 2 => (latch_memory_data dp i .top, false)
    | 3 =>
      let dp := latch_next dp i .ma_minus_one_out
      let dp := latch_ip dp i .ip_inc
      (dp, true)
    | _ => (dp, false)  -- Python: raise "fatal exception" (unreachable)
  | .shift_back_ret =>
    let dp := latch_pra_shp dp i .pra_shp_inc
    let dp := latch_ip dp i .ip_inc
    (dp, true)
  | _ => (dp, false)  -- Python: raise "fatal exception" (unreachable)

/-- `ControlUnit.port_instructions_exec`. -/
def port_instructions_exec (dp : DataPath) (i : Instruction) : DataPath × Bool :=
  match i.opcode with
  | .read_port =>
    let dp := latch_next dp i .top
    let dp := latch_top dp i .port_value
    let dp := latch_memory_data dp i .port_value
    let dp := latch_port_flags dp i .false_sig
    let dp := latch_od_shp dp i .od_shp_inc
    let dp := latch_ip dp i .ip_inc
    (dp, true)
  | .write_port =>
    let dp := latch_port_value dp i .top
    let dp := latch_top dp i .next_out
    let dp := latch_next dp i .ma_minus_one_out
    let dp := latch_port_flags dp i .true_sig
    let dp := latch_od_shp dp i .od_shp_dec
    let dp := latch_ip dp i .ip_inc
    (dp, true)
  | .has_port_filled_with_cpu =>
    let dp := latch_next dp i .top
    let dp := latch_memory_data dp i .has_device_filled_with_cpu
    let dp := latch_top dp i .has_device_filled_with_cpu
    let dp := latch_od_shp dp i .od_shp_inc
    let dp := latch_ip dp i .ip_inc
    (dp, true)
  | .has_port_filled_with_device =>
    let dp := latch_next dp i .top
    let dp := latch_memory_data dp i .has_port_filled_with_device
    let dp := latch_top dp i .has_port_filled_with_device
    let dp := latch_od_shp dp i .od_shp_inc
    let dp := latch_ip dp i .ip_inc
    (dp, true)
  | _ => (dp, false)  -- Python: raise "fatal exception" (unreachable)

/-- `ControlUnit.vardata_instructions_exec`. -/
def vardata_instructions_exec (dp : DataPath) (i : Instruction) : DataPath × Bool :=
  match i.opcode with
  | .read_vardata =>
    match dp.instruction_stage_number with
    | 1 =>
      let dp := latch_next dp i .top
      let dp := latch_top dp i .ma_out
      (dp, false)
    | 2 =>
      let dp := latch_memory_data dp i .top
      let dp := latch_od_shp dp i .od_shp_inc
      let dp := latch_ip dp i .ip_inc
      (dp, true)
    | _ => (dp, false)  -- Python: falls off the match, returns False
  | .write_vardata =>
    match dp.instruction_stage_number with
    | 1 =>
      let dp := latch_memory_data dp i .top
      let dp := latch_top dp i .next_out
      (dp, false)
    | 2 =>
      let dp := latch_next dp i .ma_minus_one_out
      let dp := latch_od_shp dp i .od_shp_dec
      let dp := latch_ip dp i .ip_inc
      (dp, true)
    | _ => (dp, false)  -- Python: falls off the match, returns False
  | .sum_top_with_vdsp =>
    let dp := latch_top dp i .vdsp_plus_top
    let dp := latch_memory_data dp i .vdsp_plus_top
    let dp := latch_ip dp i .ip_inc
    (dp, true)
  | _ => (dp, false)  -- Python: raise "fatal exception" (unreachable)

/-- `ControlUnit.dup_instructions_exec`. -/
def dup_instructions_exec (dp : DataPath) (i : Instruction) : DataPath × Bool :=
  match i.opcode with
  | .dup_ret =>
    match dp.instruction_stage_number with
    | 1 => (latch_top dp i .ma_out, false)
    | 2 =>
      let dp := latch_memory_data dp i .top
      let dp := latch_pra_shp dp i .pra_shp_inc
      (dp, false)
    | 3 =>
      let dp := latch_top dp i .ma_out
      let dp := latch_ip dp i .ip_inc
      (dp, true)
    | _ => (dp, false)  -- Python: raise "fatal exception" (unreachable)
  | .dup =>
    let dp := latch_next dp i .top
    let dp := latch_memory_data dp i .top
    let dp := latch_od_shp dp i .od_shp_inc
    let dp := latch_ip dp i .ip_inc
    (dp, true)
  | .dudup =>
    match dp.instruction_stage_number with
    | 1 =>
      let dp := latch_memory_data dp i .next_out
      let dp := latch_od_shp dp i .od_shp_inc
      (dp, false)
    | 2 =>
      let dp := latch_memory_data dp i .top
      let dp := latch_od_shp dp i .od_shp_inc
      let dp := latch_ip dp i .ip_inc
      (dp, true)
    | _ => (dp, false)  -- Python: raise "fatal exception" (unreachable)
  | _ => (dp, false)  -- Python: raise "fatal exception" (unreachable)

/-- `ControlUnit.ip_changing_instructions_exec`. -/
def ip_changing_instructions_exec (dp : DataPath) (i : Instruction) : DataPath × Bool :=
  match i.opcode with
  | .jmp => (latch_ip dp i .ip_plus_arg, true)
  | .exec_if | .exec_cond_jmp =>
    let dp := latch_next dp i .ma_minus_one_out
    let dp := latch_ip dp i .ip_conv_sig_sum_inc
    let dp := latch_top dp i .next_out
    let dp := latch_od_shp dp i .od_shp_dec
    (dp, true)
  | .exec_cond_jmp_ret =>
    let dp := latch_ip dp i .ip_conv_sig_sum_inc
    let dp := latch_pra_shp dp i .pra_shp_inc
    (dp, true)
  | .jmp_pop_pra_shp =>
    match dp.instruction_stage_number with
    | 1 =>
      let dp := latch_top dp i .ma_out
      let dp := latch_pra_shp dp i .pra_shp_inc
      (dp, false)
    | 2 =>
      let dp := latch_ip dp i .top
      let dp := latch_top dp i .ma_out
      (dp, true)
    | _ => (dp, false)  -- Python: raise "fatal exception" (unreachable)
  | _ => (dp, false)  -- Python: raise "fatal exception" (unreachable)

/-- Result of one `next_tick_execute` call: `stopped` models the
`StopIteration` raised by `HALT` outside an interruption, `fatal` models the
`raise "fatal exception"` of the outer opcode dispatch. -/
inductive NTERes where
  | stopped (cu : ControlUnit)
  | fatal (cu : ControlUnit)
  | ran (cu : ControlUnit) (is_last : Bool)
  deriving DecidableEq, Repr

/-- The common tail of `next_tick_execute`: increment the tick counter and
either reset the stage number (last tick of the instruction) or advance it. -/
def nte_finish (cu : ControlUnit) (r : DataPath × Bool) : NTERes :=
  let cu1 : ControlUnit :=
    { cu with data_path := r.1, ticks_counter := cu.ticks_counter + 1 }
  if r.2 then
    .ran { cu1 with data_path := signal_reset_instruction_stage_number r.1, instructions_counter := cu.instructions_counter + 1 } true
  else
    .ran { cu1 with data_path := signal_increment_instruction_stage_number r.1 } false

/-- The opcode dispatch of `next_tick_execute` (the `match` over the opcode
families).  The `HALT` branch returns early: the common tick-counter
increment and stage-number reset at the bottom of the Python function are
skipped there. -/
def nte_dispatch (cu : ControlUnit) (instruction : Instruction) : NTERes :=
  match instruction.opcode with
  | .halt =>
    if !cu.is_in_interruption then .stopped cu
    else
      let dp := cu.data_path
      let dp := { dp with instruction_stage_number := (memGet dp.data_memory dp.pra_shp_pointer).toInt }
      let dp := { dp with pra_shp_pointer := dp.pra_shp_pointer + 1 }
      let dp := { dp with instruction_pointer := (memGet dp.data_memory dp.pra_shp_pointer).toInt }
      let dp := { dp with pra_shp_pointer := dp.pra_shp_pointer + 1 }
      .ran { cu with data_path := dp, ticks_counter := cu.ticks_counter + 1, is_in_interruption := false } true
  | .dup_ret | .dup | .dudup =>
      nte_finish cu (dup_instructions_exec cu.data_path instruction)
  | .jmp | .jmp_pop_pra_shp | .exec_if | .exec_cond_jmp_ret | .exec_cond_jmp =>
      nte_finish cu (ip_changing_instructions_exec cu.data_path instruction)
  | .number | .sum | .diff | .div | .mul | .mod | .eq | .neq | .less | .gr
  | .le | .ge | .shift_back | .put | .put_absolute | .pick | .pick_absolute | .swap =>
      nte_finish cu (full_data_instractions_exec cu.data_path instruction)
  | .push_inc_inc_ip_to_pra_shp | .increment_ret | .decrement_ret
  | .eq_not_consuming_ret | .pop_to_ret | .push_to_od | .shift_back_ret =>
      nte_finish cu (pra_maniputation_instractions_exec cu.data_path instruction)
  | .read_port | .write_port | .has_port_filled_with_cpu | .has_port_filled_with_device =>
      nte_finish cu (port_instructions_exec cu.data_path instruction)
  | .read_vardata | .write_vardata | .sum_top_with_vdsp =>
      nte_finish cu (vardata_instructions_exec cu.data_path instruction)
  | .push_to_ret | .pop_to_od | .read_vardata_user_link | .write_vardata_user_link =>
      .fatal cu  -- Python: raise "fatal exception"

/-- `ControlUnit.next_tick_execute`: fetch the current instruction, snapshot
the registers, and dispatch on the opcode. -/
def next_tick_execute (cu : ControlUnit) : NTERes :=
  nte_dispatch { cu with data_path := saveRegs cu.data_path } (current_instruction cu)

/-- `ControlUnit.step_in_port_interruption`: the two-step interrupt entry
sequence (save IP, load the handler start PC, save ISN, reset ISN). -/
def step_in_port_interruption (cu : ControlUnit) (port_number : Int)
    (is_write_interruption : Bool) : ControlUnit :=
  let dp := cu.data_path
  let port_interruption_memory_index := 2 * port_number
  let handler_start_pc :=
    if is_write_interruption then (memGet dp.data_memory port_interruption_memory_index).toInt
    else (memGet dp.data_memory (port_interruption_memory_index + 1)).toInt
  -- tick 1
  let dp := { dp with pra_shp_pointer := dp.pra_shp_pointer - 1 }
  let dp := { dp with data_memory := memSet dp.data_memory dp.pra_shp_pointer (.num dp.instruction_pointer) }
  let dp := { dp with instruction_pointer := handler_start_pc }
  -- tick 2
  let dp := { dp with pra_shp_pointer := dp.pra_shp_pointer - 1 }
  let dp := { dp with data_memory := memSet dp.data_memory dp.pra_shp_pointer (.num dp.instruction_stage_number) }
  let dp := { dp with instruction_stage_number := 1 }
  { cu with data_path := dp }

/-! ### machine.py: boot and the simulation driver -/

/-- `DataPath.write_code`: copy a code block into memory starting at an index. -/
def write_code (mem : Memory) (memory_index : Int) (code : List Instruction) : Memory :=
  match code with
  | [] => mem
  | instruction :: rest => write_code (memSet mem memory_index (.instr instruction)) (memory_index + 1) rest

/-- Helper for `DataPath.__init__`: lay the handler code blocks out after the
handler table, returning the updated memory, the table of start PCs (in
order), the next free index and the ports list. -/
def layoutPorts (mem : Memory) (start : Int)
    (ports_description : List (List Instruction × List Instruction)) :
    Memory × List Int × Int × List Port :=
  match ports_description with
  | [] => (mem, [], start, [])
  | (on_write, on_read) :: rest =>
    let mem := write_code mem start on_write
    let start2 := start + on_write.length
    let mem := write_code mem start2 on_read
    let start3 := start2 + on_read.length
    let (mem', table, fin, ports) := layoutPorts mem start3 rest
    (mem', start :: start2 :: table, fin, Port.init :: ports)

/-- Write the handler start-PC table into memory cells `0, 1, …`. -/
def writeTable (mem : Memory) (i : Int) (table : List Int) : Memory :=
  match table with
  | [] => mem
  | v :: rest => writeTable (memSet mem i (.num v)) (i + 1) rest

/-- `DataPath.__init__`: boot a program image and the port handlers into a
fresh data memory of `memory_size` zero cells. -/
def initDataPath (memory_size : Int) (var_memory_size : Int)
    (ports_description : List (List Instruction × List Instruction))
    (program : List Instruction) : DataPath :=
  let mem0 : Memory := List.replicate memory_size.toNat (.num 0)
  let procedure_start_point : Int := 2 * ports_description.length
  let (mem1, table, var_start, ports) := layoutPorts mem0 procedure_start_point ports_description
  let mem2 := writeTable mem1 0 table
  let ip := var_start + var_memory_size
  let mem3 := write_code mem2 ip program
  let od_start := ip + program.length
  { data_memory := mem3
    instruction_pointer := ip
    top := 0          -- Python: the placeholder string "None"
    next := 0         -- Python: the placeholder string "None"
    pra_shp_pointer := memory_size - 1
    od_stack_start := od_start
    od_sh_pointer := od_start
    instruction_stage_number := 1
    ports := ports
    var_data_start_point := var_start
    cur_tick_regs_state := ⟨0, 0, 0, 0, 0⟩ }

/-- The driver state: the control unit plus the bytes printed so far
(`print(chr(...))` in `do_simulation` is modelled by recording the raw port
datum; the driver prints value 13 as a newline and everything else as the
character with that code point). -/
structure SimState where
  cu : ControlUnit
  output : List Int
  deriving DecidableEq, Repr

/-- Result of one iteration of the `do_simulation` `while` loop. -/
inductive SimStepRes where
  | cont (s : SimState)
  | halted (s : SimState)
  | fatalRes (s : SimState)
  deriving DecidableEq, Repr

/-- `trimmed_input_tokens` lookup: the Python dict keeps the first pair for
each tick index, so looking a tick up in the original list and taking the
first hit is equivalent. -/
def schedLookup (sched : List (Int × Int)) (t : Int) : Option Int :=
  match sched with
  | [] => none
  | (tick, value) :: rest => if tick = t then some value else schedLookup rest t

/-- The device-write branch of the `do_simulation` loop: mark the port as
filled by the device, enter the interruption through the port's first
(`is_write_interruption = True`) handler, and charge 3 ticks. -/
def interruption_enter (s : SimState) (value : Int) : SimState :=
  let main_port_number : Int := 0
  let cu := { s.cu with is_in_interruption := true }
  let dp := cu.data_path
  let dp := { dp with ports := setPort dp.ports main_port_number { getPort dp.ports main_port_number with data := value } }
  let dp := { dp with ports := setPort dp.ports main_port_number { getPort dp.ports main_port_number with filled_with_device := true } }
  let cu := step_in_port_interruption { cu with data_path := dp } main_port_number true
  { s with cu := { cu with ticks_counter := cu.ticks_counter + 3 } }

/-- The post-execution check of the `do_simulation` loop: if the CPU has
filled the main port, print the datum, clear the flag and enter the
interruption through the port's second (`is_write_interruption = False`)
handler, charging 3 ticks.  Note that this branch does not test
`is_in_interruption`. -/
def post_write_check (s : SimState) : SimState :=
  let main_port_number : Int := 0
  let dp := s.cu.data_path
  let p := getPort dp.ports main_port_number
  if p.filled_with_cpu then
    let s := { s with output := s.output ++ [p.data] }
    let dp := { dp with ports := setPort dp.ports main_port_number { p with filled_with_cpu := false } }
    let cu := { s.cu with data_path := dp, is_in_interruption := true }
    let cu := step_in_port_interruption cu main_port_number false
    { s with cu := { cu with ticks_counter := cu.ticks_counter + 3 } }
  else s

/-- The execute-one-tick part of the `do_simulation` loop body. -/
def exec_path (s : SimState) : SimStepRes :=
  match next_tick_execute s.cu with
  | .stopped cu => .halted { s with cu := cu }
  | .fatal cu => .fatalRes { s with cu := cu }
  | .ran cu _ => .cont (post_write_check { s with cu := cu })

/-- One iteration of the `while` loop of `do_simulation`.  A scheduled device
write is delivered only when no interruption is in progress; otherwise it is
dropped (logged in Python) and the iteration proceeds to execute a tick. -/
def do_simulation_step (sched : List (Int × Int)) (s : SimState) : SimStepRes :=
  match schedLookup sched s.cu.ticks_counter with
  | some value =>
    if !s.cu.is_in_interruption then .cont (interruption_enter s value)
    else exec_path s
  | none => exec_path s

/-- The `while control_unit.ticks_counter < ticks_limit` loop of
`do_simulation`, driven by explicit fuel (every iteration increases the tick
counter, so `ticks_limit` iterations of fuel always suffice).  The returned
flag tells whether the run ended in `StopIteration` (a `HALT` outside an
interruption). -/
def do_simulation (sched : List (Int × Int)) (ticks_limit : Int) :
    Nat → SimState → SimState × Bool
  | 0, s => (s, false)
  | fuel + 1, s =>
    if s.cu.ticks_counter < ticks_limit then
      match do_simulation_step sched s with
      | .cont s2 => do_simulation sched ticks_limit fuel s2
      | .halted s2 => (s2, true)
      | .fatalRes s2 => (s2, false)
    else (s, false)

/-- `simulation`: boot the machine and run the driver loop. -/
def simulation (data_memory_size : Int) (var_memory_size : Int)
    (ports_description : List (List Instruction × List Instruction))
    (program : List Instruction) (input_tokens : List (Int × Int))
    (ticks_limit : Int) (fuel : Nat) : SimState × Bool :=
  let dp := initDataPath data_memory_size var_memory_size ports_description program
  let cu : ControlUnit :=
    { data_path := dp, is_in_interruption := false, ticks_counter := 0, instructions_counter := 0 }
  do_simulation input_tokens ticks_limit fuel { cu := cu, output := [] }

/-! ### translator.py: token classification

The regex-based classifiers of `translator.py` are re-expressed character by
character.  `int(...)` accepts an optional sign followed by decimal digits
(the tokens at hand never contain whitespace or digit-group underscores). -/

/-- The character list underlying a string (`String.data` reduces in the
kernel, unlike the position-based `String.drop` / `String.splitOn`). -/
def strChars (s : String) : List Char := s.data

/-- Rebuild a string from its characters. -/
def ofChars (l : List Char) : String := ⟨l⟩

/-- Python `s[1:]` on a token. -/
def strDrop1 (s : String) : String := ofChars ((strChars s).drop 1)

/-- Python `char_seq[:-1]` on a token. -/
def strDropLast (s : String) : String := ofChars ((strChars s).dropLast)

/-- Whether the first character of a token is `c` (tokens are non-empty at
every call site; Python indexes `s[0]`). -/
def strHeadIs (s : String) (c : Char) : Bool :=
  match strChars s with
  | [] => false
  | d :: _ => d = c

/-- Whether the last character of a token is `c` (Python `s[-1]`). -/
def strLastIs (s : String) (c : Char) : Bool :=
  match (strChars s).getLast? with
  | none => false
  | some d => d = c

/-- Python `s.split("-")`: split on every dash. -/
def splitDashChars : List Char → List (List Char)
  | [] => [[]]
  | c :: rest =>
    let r := splitDashChars rest
    if c = '-' then [] :: r
    else
      match r with
      | p :: ps => (c :: p) :: ps
      | [] => [[c]]

/-- Python `s.split("-")` as strings. -/
def splitDash (s : String) : List String := (splitDashChars (strChars s)).map ofChars

/-- Decimal digits to a number; `none` when empty or non-digit. -/
def digitsToNat? : List Char → Option Nat
  | [] => none
  | cs => go cs 0
where
  go : List Char → Nat → Option Nat
  | [], acc => some acc
  | c :: rest, acc => if c.isDigit then go rest (acc * 10 + (c.toNat - 48)) else none

/-- Python `int(s)` on a whitespace-free token: optional sign, then digits. -/
def str_to_int? (s : String) : Option Int :=
  match strChars s with
  | '-' :: rest => (digitsToNat? rest).map (fun n => -(n : Int))
  | '+' :: rest => (digitsToNat? rest).map (fun n => (n : Int))
  | l => (digitsToNat? l).map (fun n => (n : Int))

/-- `is_int56` (literal translation: for a negative value the Python test
`-value > -(2**56)` compares a positive with a negative number and is always
true). -/
def is_int56 (value : Int) : Bool :=
  if value < 0 then -value > -(2 ^ 56) else value < 2 ^ 56 - 1

/-- `is_correct_number`. -/
def is_correct_number (char_seq : String) : Bool :=
  match str_to_int? char_seq with
  | some value => is_int56 value
  | none => false

/-- `is_sign_word`. -/
def is_sign_word (char_seq : String) : Bool :=
  char_seq = "+" || char_seq = "-" || char_seq = "/" || char_seq = "*"

/-- `is_comparator_word`. -/
def is_comparator_word (char_seq : String) : Bool :=
  char_seq = "<>" || char_seq = "=" || char_seq = ">" || char_seq = ">=" ||
  char_seq = "<" || char_seq = "<="

/-- `is_user_word`: full match of `[a-zA-Z][a-zA-Z\-\\_]*`. -/
def is_user_word (char_seq : String) : Bool :=
  match strChars char_seq with
  | [] => false
  | c :: rest => c.isAlpha && rest.all (fun d => d.isAlpha || d = '-' || d = '\\' || d = '_')

/-- `is_compiler_word`. -/
def is_compiler_word (char_seq : String) : Bool :=
  (strChars char_seq).length > 1 && strHeadIs char_seq '_' && is_user_word (strDrop1 char_seq)

/-- `is_string_imm_printing` (tokens are never empty at the call sites). -/
def is_string_imm_printing (char_seq : String) : Bool :=
  strHeadIs char_seq '"' && strLastIs char_seq '"'

/-- `is_variable_operation`.  The three-or-more-parts branch executes
`assert "wrong variable term"` — a truthy no-op — and returns `False`. -/
def is_variable_operation (char_seq : String) : Bool :=
  match splitDash char_seq with
  | [_] =>
    (strChars char_seq).length > 0 &&
    (is_compiler_word (strDropLast char_seq) || is_user_word (strDropLast char_seq)) &&
    (strLastIs char_seq '!' || strLastIs char_seq '?' || strLastIs char_seq '&')
  | [p0, p1] => (is_user_word p0 || is_compiler_word p0) && is_correct_number p1
  | _ => false

/-- `is_system_variable_operation` (tokens are never empty at the call sites). -/
def is_system_variable_operation (char_seq : String) : Bool :=
  strHeadIs char_seq '_' && is_variable_operation (strDrop1 char_seq)

/-- `is_correct_word_def_term`. -/
def is_correct_word_def_term (char_seq : String) : Bool :=
  if strHeadIs char_seq ':' then is_user_word (strDrop1 char_seq) else char_seq = ";"

/-- `is_for_cycle_begin`. -/
def is_for_cycle_begin (char_seq : String) : Bool := char_seq = "do" || char_seq = "doi"

/-- `is_for_cycle_end`. -/
def is_for_cycle_end (char_seq : String) : Bool := char_seq = "loop" || char_seq = "mloop"

/-- `is_while_cycle_begin`. -/
def is_while_cycle_begin (char_seq : String) : Bool := char_seq = "begin"

/-- `is_while_cycle_end`. -/
def is_while_cycle_end (char_seq : String) : Bool := char_seq = "until"

/-! ### translator.py: the structural checker

The Python checker keeps its block stack in a list whose top is the last
element; here the stack is kept with its top at the HEAD of the list
(`append` is cons, `pop`/`[-1]` act on the head).  Crucially, most of the
Python checks are `assert <string literal>` — truthy, hence no-ops; the
genuine failure points are `blocks[-1]` / `blocks.pop()` on an empty list
(IndexError) and `assert is_inside_loop, ...`. -/

/-- A block marker: the Python dicts `{"name": "for"}`, `{"name": "while"}`
and `{"name": "if", "had_else": b}`. -/
inductive Block where
  | forB
  | whileB
  | ifB (had_else : Bool)
  deriving DecidableEq, Repr

/-- Whether a block is a loop block (`block["name"] in ["for", "while"]`). -/
def Block.isLoop : Block → Bool
  | .forB => true
  | .whileB => true
  | .ifB _ => false

/-- `if_block_begin_check`. -/
def if_block_begin_check (term_name : String) (blocks : List Block) : Bool × List Block :=
  if is_for_cycle_begin term_name then (true, .forB :: blocks)
  else if is_while_cycle_begin term_name then (true, .whileB :: blocks)
  else if term_name = "if" then (true, .ifB false :: blocks)
  else (false, blocks)

/-- `if_block_middle_check`.  For `else`, the guard
`if blocks[-1]["name"] != "if" or blocks[-1]["had_else"]: assert '...'` is a
truthy no-op, after which the top block is unconditionally replaced by an
`if` block with `had_else = True`; on an empty stack `blocks[-1]` raises. -/
def if_block_middle_check (term_name : String) (blocks : List Block) :
    Except String (Bool × List Block) :=
  if term_name = "else" then
    match blocks with
    | [] => .error "IndexError: blocks[-1] on empty list"
    | _ :: rest => .ok (true, .ifB true :: rest)
  else if term_name = "leave" then
    if blocks.any Block.isLoop then .ok (true, blocks)
    else .error "Bad leave!"
  else .ok (false, blocks)

/-- `if_block_end_check`.  The popped block's kind comparison only feeds a
truthy `assert`, so a kind mismatch is accepted; popping an empty stack
raises. -/
def if_block_end_check (term_name : String) (blocks : List Block) :
    Except String (Bool × List Block) :=
  if is_for_cycle_end term_name then
    match blocks with
    | [] => .error "IndexError: pop from empty list"
    | _ :: rest => .ok (true, rest)
  else if is_while_cycle_end term_name then
    match blocks with
    | [] => .error "IndexError: pop from empty list"
    | _ :: rest => .ok (true, rest)
  else if term_name = "then" then
    match blocks with
    | [] => .error "IndexError: pop from empty list"
    | _ :: rest => .ok (true, rest)
  else .ok (false, blocks)

/-- `if_not_proc_block_check`. -/
def if_not_proc_block_check (term_name : String) (blocks : List Block) :
    Except String (Bool × List Block) :=
  match if_block_begin_check term_name blocks with
  | (true, blocks2) => .ok (true, blocks2)
  | (false, _) =>
    match if_block_middle_check term_name blocks with
    | .error e => .error e
    | .ok (true, blocks2) => .ok (true, blocks2)
    | .ok (false, _) =>
      match if_block_end_check term_name blocks with
      | .error e => .error e
      | .ok (checked, blocks2) => .ok (checked, blocks2)

/-- `if_proc_block_check`: both of its failure checks are truthy `assert`s,
so it never fails; it only toggles `is_in_word_def` (and is in fact dead for
`:`/`;` tokens, which are not user words and never reach it). -/
def if_proc_block_check (term_name : String) (is_in_word_def : Bool) :
    Bool × Bool :=
  if strHeadIs term_name ':' then (true, true)
  else if term_name = ";" then (true, false)
  else (false, is_in_word_def)

/-- The scan loop of `code_correctness_check`. -/
def ccc_go : List Term → List Block → Bool → Except String Unit
  | [], _, _ => .ok ()  -- the final length/word-def test is a truthy assert
  | term :: rest, blocks, is_in_word_def =>
    if is_user_word term.name then
      match if_not_proc_block_check term.name blocks with
      | .error e => .error e
      | .ok (true, blocks2) => ccc_go rest blocks2 is_in_word_def
      | .ok (false, blocks2) =>
        let (_, in_wd2) := if_proc_block_check term.name is_in_word_def
        ccc_go rest blocks2 in_wd2
    else ccc_go rest blocks is_in_word_def

/-- `code_correctness_check`. -/
def code_correctness_check (terms : List Term) : Except String Unit :=
  ccc_go terms [] false

/-! ### translator.py: complex-term expansion -/

/-- The token stream of the shared `print_string` routine
(`print_string_code_terms`): the template string split on whitespace, each
token stamped with the originating term's source location. -/
def print_string_code_terms (term : Term) : List Term :=
  ["_string_pointer!", "begin", "_string_pointer?", "pick_absolute", "dup", "if",
   "drop", "leave", "then", "begin", "cant_emit", "0", "=", "until", "emit",
   "_string_pointer?", "1", "+", "_string_pointer!", "0",
   "until"].map (fun name => ⟨term.line_number, term.line_position, name⟩)

/-- The per-character token stream of a string literal's expansion in
`replace_complex_terms`. -/
def stringCharTerms (term : Term) (ch : Char) : List Term :=
  [toString ch.toNat, "_string_pointer?", "put_absolute", "_string_pointer?", "1",
   "+", "_string_pointer!"].map (fun name => ⟨term.line_number, term.line_position, name⟩)

/-- `replace_complex_terms`. -/
def replace_complex_terms (terms : List Term) : List Term :=
  match terms with
  | [] => []
  | term :: rest =>
    if term.name = "print_string" then
      print_string_code_terms term ++ replace_complex_terms rest
    else if is_string_imm_printing term.name then
      let str := ((strChars term.name).dropLast).drop 1  -- term.name[1:-1]
      (["_string-" ++ toString (str.length + 1), "_string&",
        "_string_pointer!"].map (fun name => ⟨term.line_number, term.line_position, name⟩)) ++
      (str.flatMap (stringCharTerms term)) ++
      (["0", "_string_pointer?", "put_absolute",
        "_string&"].map (fun name => ⟨term.line_number, term.line_position, name⟩)) ++
      print_string_code_terms term ++ replace_complex_terms rest
    else term :: replace_complex_terms rest

/-! ### translator.py: lowering -/

/-- One recorded variable reference: the dict `{"pc": …, "size": …}` stored
in `vars_pcs`. -/
structure VarRef where
  pc : Int
  size : Int
  deriving DecidableEq, Repr

/-- Association-list lookup (a Python dict read). -/
def assocLookup {α : Type} (l : List (String × α)) (k : String) : Option α :=
  match l with
  | [] => none
  | (k2, v) :: rest => if k2 = k then some v else assocLookup rest k

/-- Python dict assignment `d[k] = v` (insertion order preserved). -/
def assocSet {α : Type} (l : List (String × α)) (k : String) (v : α) :
    List (String × α) :=
  match l with
  | [] => [(k, v)]
  | (k2, v2) :: rest => if k2 = k then (k2, v) :: rest else (k2, v2) :: assocSet rest k v

/-- Python `d.setdefault(k, []).append(v)` pattern (`if k not in d: d[k] = []`
followed by `d[k].append(v)`): insertion order of first references preserved. -/
def assocAppend {α : Type} (l : List (String × List α)) (k : String) (v : α) :
    List (String × List α) :=
  match l with
  | [] => [(k, [v])]
  | (k2, vs) :: rest =>
    if k2 = k then (k2, vs ++ [v]) :: rest else (k2, vs) :: assocAppend rest k v

/-- `code[i].arg = a`: back-patch the argument of an already-emitted
instruction.  A negative index would wrap in Python (never reached here);
an index at or past the end raises IndexError. -/
def patchArg (code : List Instruction) (i : Int) (a : Int) :
    Except String (List Instruction) :=
  if i < 0 then .error "negative patch index"
  else
    match code.get? i.toNat with
    | none => .error "IndexError: list assignment index out of range"
    | some ins => .ok (code.set i.toNat { ins with arg := some a })

/-- The mutable state threaded through `translate`'s per-term loop.  The
Python stacks `jmp_points` and `leaves_points` have their top at the end of
the list; here the top is at the HEAD. -/
structure TransState where
  word_def_pc : List (String × Int)
  word_jmp_pcs : List (String × List Int)
  vars_pcs : List (String × List VarRef)
  code : List Instruction
  jmp_points : List Int
  leaves_points : List (List Int)
  last_word_def_jmp_pc : Option Int
  pc : Int

/-- The empty initial `TransState` of `translate`. -/
def initTransState : TransState :=
  ⟨[], [], [], [], [], [], none, 0⟩

/-- `exec_loop`: the closing sequence of `loop` / `mloop`. -/
def exec_loop (code : List Instruction) (is_inc : Bool) (pc : Int) (jmp_to : Int)
    (term : Term) : List Instruction × Int :=
  let code := code ++ [⟨pc, if is_inc then .increment_ret else .decrement_ret, none, term⟩]
  let pc := pc + 1
  let code := code ++ [⟨pc, .eq_not_consuming_ret, none, term⟩]
  let pc := pc + 1
  let code := code ++ [⟨pc, .exec_cond_jmp_ret, some (jmp_to - pc - 1), term⟩]
  let pc := pc + 1
  let code := code ++ [⟨pc, .shift_back_ret, none, term⟩]
  let pc := pc + 1
  let code := code ++ [⟨pc, .shift_back_ret, none, term⟩]
  let pc := pc + 1
  (code, pc)

/-- `do_init_exec`: SWAP and two POP_TO_RET moving the loop bounds to the
return stack. -/
def do_init_exec (code : List Instruction) (pc : Int) (term : Term) :
    List Instruction × Int :=
  let code := code ++ [⟨pc, .swap, none, term⟩]
  let pc := pc + 1
  let code := code ++ [⟨pc, .pop_to_ret, none, term⟩]
  let pc := pc + 1
  let code := code ++ [⟨pc, .pop_to_ret, none, term⟩]
  let pc := pc + 1
  (code, pc)

/-- `do_index_adding_exec`. -/
def do_index_adding_exec (code : List Instruction) (pc : Int) (term : Term) :
    List Instruction × Int :=
  (code ++ [⟨pc, .push_to_od, none, term⟩], pc + 1)

/-- `emit_exec`. -/
def emit_exec (code : List Instruction) (pc : Int) (term : Term) :
    List Instruction × Int :=
  (code ++ [⟨pc, .write_port, some 0, term⟩], pc + 1)

/-- `sign_word_or_comparator_append` (called only under
`is_sign_word ∨ is_comparator_word`; the ten cases are exhaustive there). -/
def sign_word_or_comparator_append (term : Term) (code : List Instruction)
    (pc : Int) : List Instruction × Int :=
  let opcode : Opcode :=
    if term.name = "+" then .sum
    else if term.name = "-" then .diff
    else if term.name = "*" then .mul
    else if term.name = "/" then .div
    else if term.name = "=" then .eq
    else if term.name = ">" then .gr
    else if term.name = ">=" then .ge
    else if term.name = "<" then .less
    else if term.name = "<=" then .le
    else .neq  -- "<>" (the guard makes this chain exhaustive)
  (code ++ [⟨pc, opcode, none, term⟩], pc + 1)

/-- `if_built_in_common_commands_append`. -/
def if_built_in_common_commands_append (term : Term) (code : List Instruction)
    (pc : Int) : Bool × List Instruction × Int :=
  let no_arg_opcode : Option Opcode :=
    if term.name = "mod" then some .mod
    else if term.name = "put" then some .put
    else if term.name = "put_absolute" then some .put_absolute
    else if term.name = "pick" then some .pick
    else if term.name = "pick_absolute" then some .pick_absolute
    else if term.name = "sum_top_with_vdsp" then some .sum_top_with_vdsp
    else if term.name = "swap" then some .swap
    else if term.name = "drop" then some .shift_back
    else if term.name = "dup" then some .dup
    else if term.name = "dudup" then some .dudup
    else none
  match no_arg_opcode with
  | some op => (true, code ++ [⟨pc, op, none, term⟩], pc + 1)
  | none => (false, code, pc)

/-- `if_port_command_append`. -/
def if_port_command_append (term : Term) (code : List Instruction) (pc : Int) :
    Bool × List Instruction × Int :=
  if term.name = "cant_emit" then
    (true, code ++ [⟨pc, .has_port_filled_with_cpu, some 0, term⟩], pc + 1)
  else if term.name = "has_input" then
    (true, code ++ [⟨pc, .has_port_filled_with_device, some 0, term⟩], pc + 1)
  else if term.name = "key" then
    (true, code ++ [⟨pc, .read_port, some 0, term⟩], pc + 1)
  else if term.name = "emit" then
    (true, code ++ [⟨pc, .write_port, some 0, term⟩], pc + 1)
  else if term.name = "cr" then
    let code := code ++ [⟨pc, .number, some 13, term⟩]
    let pc := pc + 1
    let (code, pc) := emit_exec code pc term
    (true, code, pc)
  else (false, code, pc)

/-- `if_opening_jmp_command_append`. -/
def if_opening_jmp_command_append (term : Term) (st : TransState) :
    Bool × TransState :=
  if term.name = "do" then
    let (code, pc) := do_init_exec st.code st.pc term
    (true, { st with
              code := code, pc := pc, jmp_points := pc :: st.jmp_points,
              leaves_points := [] :: st.leaves_points })
  else if term.name = "doi" then
    let (code, pc) := do_init_exec st.code st.pc term
    let jmp_points := pc :: st.jmp_points
    let (code, pc) := do_index_adding_exec code pc term
    (true, { st with
              code := code, pc := pc, jmp_points := jmp_points,
              leaves_points := [] :: st.leaves_points })
  else if term.name = "begin" then
    (true, { st with
              jmp_points := st.pc :: st.jmp_points,
              leaves_points := [] :: st.leaves_points })
  else if term.name = "if" then
    let code := st.code ++ [⟨st.pc, .exec_if, none, term⟩]
    let pc := st.pc + 1
    let jmp_points := pc :: st.jmp_points
    let code := code ++ [⟨pc, .jmp, none, term⟩]
    (true, { st with code := code, pc := pc + 1, jmp_points := jmp_points })
  else (false, st)

/-- `if_middle_jmp_command_append`. -/
def if_middle_jmp_command_append (term : Term) (st : TransState) :
    Except String (Bool × TransState) :=
  if term.name = "else" then
    match st.jmp_points with
    | [] => .error "IndexError: pop from empty list"
    | if_false_jmp_pc :: jmp_rest =>
      let jmp_points := st.pc :: jmp_rest
      let code := st.code ++ [⟨st.pc, .jmp, none, term⟩]
      let pc := st.pc + 1
      match patchArg code if_false_jmp_pc (pc - if_false_jmp_pc) with
      | .error e => .error e
      | .ok code2 =>
        .ok (true, { st with code := code2, pc := pc, jmp_points := jmp_points })
  else if term.name = "leave" then
    match st.leaves_points with
    | [] => .error "IndexError: leaves_points[-1] on empty list"
    | leaves :: leaves_rest =>
      let leaves_points := (leaves ++ [st.pc]) :: leaves_rest
      let code := st.code ++ [⟨st.pc, .jmp, none, term⟩]
      .ok (true, { st with code := code, pc := st.pc + 1, leaves_points := leaves_points })
  else .ok (false, st)

/-- Patch all recorded `leave` jumps of the innermost loop. -/
def patchLeaves (code : List Instruction) (leaves : List Int) (target : Int)
    (delta : Int) : Except String (List Instruction) :=
  match leaves with
  | [] => .ok code
  | leave_pc :: rest =>
    match patchArg code leave_pc (target - leave_pc - delta) with
    | .error e => .error e
    | .ok code2 => patchLeaves code2 rest target delta

/-- `if_closing_jmp_command_append`. -/
def if_closing_jmp_command_append (term : Term) (st : TransState) :
    Except String (Bool × TransState) :=
  if term.name = "then" then
    match st.jmp_points with
    | [] => .error "IndexError: pop from empty list"
    | if_true_jmp_pc :: jmp_rest =>
      match patchArg st.code if_true_jmp_pc (st.pc - if_true_jmp_pc) with
      | .error e => .error e
      | .ok code2 => .ok (true, { st with code := code2, jmp_points := jmp_rest })
  else if term.name = "until" then
    let code := st.code ++ [⟨st.pc, .number, some 0, term⟩]
    let pc := st.pc + 1
    let code := code ++ [⟨pc, .neq, none, term⟩]
    let pc := pc + 1
    match st.jmp_points with
    | [] => .error "IndexError: pop from empty list"
    | begin_jmp_pc :: jmp_rest =>
      let code := code ++ [⟨pc, .exec_cond_jmp, some (begin_jmp_pc - pc - 1), term⟩]
      let pc := pc + 1
      match st.leaves_points with
      | [] => .error "IndexError: leaves_points[-1] on empty list"
      | leaves :: leaves_rest =>
        match patchLeaves code leaves pc 0 with
        | .error e => .error e
        | .ok code2 =>
          .ok (true, { st with
                      code := code2, pc := pc, jmp_points := jmp_rest,
                      leaves_points := leaves_rest })
  else if term.name = "mloop" || term.name = "loop" then
    match st.jmp_points with
    | [] => .error "IndexError: pop from empty list"
    | do_jmp_pc :: jmp_rest =>
      let (code, pc) := exec_loop st.code (term.name = "loop") st.pc do_jmp_pc term
      match st.leaves_points with
      | [] => .error "IndexError: leaves_points[-1] on empty list"
      | leaves :: leaves_rest =>
        -- -2 to delete (from, to) from the return stack
        match patchLeaves code leaves pc 2 with
        | .error e => .error e
        | .ok code2 =>
          .ok (true, { st with
                        code := code2, pc := pc, jmp_points := jmp_rest,
                        leaves_points := leaves_rest })
  else .ok (false, st)

/-- `if_jmp_command_append`. -/
def if_jmp_command_append (term : Term) (st : TransState) :
    Except String (Bool × TransState) :=
  match if_opening_jmp_command_append term st with
  | (true, st2) => .ok (true, st2)
  | (false, _) =>
    match if_middle_jmp_command_append term st with
    | .error e => .error e
    | .ok (true, st2) => .ok (true, st2)
    | .ok (false, _) =>
      if_closing_jmp_command_append term st

/-- `word_append`: built-ins, port words, jump words, then a user word call
(a `PUSH_INC_INC_IP_TO_PRA_SHP` followed by a `JMP` recorded for
end-of-pass patching). -/
def word_append (term : Term) (st : TransState) : Except String TransState :=
  match if_built_in_common_commands_append term st.code st.pc with
  | (true, code, pc) => .ok { st with code := code, pc := pc }
  | (false, _, _) =>
    match if_port_command_append term st.code st.pc with
    | (true, code, pc) => .ok { st with code := code, pc := pc }
    | (false, _, _) =>
      match if_jmp_command_append term st with
      | .error e => .error e
      | .ok (true, st2) => .ok st2
      | .ok (false, _) =>
        let code := st.code ++ [⟨st.pc, .push_inc_inc_ip_to_pra_shp, none, term⟩]
        let pc := st.pc + 1
        let word_jmp_pcs := assocAppend st.word_jmp_pcs term.name pc
        let code := code ++ [⟨pc, .jmp, none, term⟩]
        .ok { st with code := code, pc := pc + 1, word_jmp_pcs := word_jmp_pcs }

/-- `word_def_append`.  For `;` with no previous `:`,
`code[last_word_def_jmp_pc]` indexes with `None` and raises (TypeError).
After a `;`, `last_word_def_jmp_pc` keeps its old value. -/
def word_def_append (term : Term) (st : TransState) : Except String TransState :=
  if term.name = ";" then
    let code := st.code ++ [⟨st.pc, .jmp_pop_pra_shp, none, term⟩]
    let pc := st.pc + 1
    match st.last_word_def_jmp_pc with
    | none => .error "TypeError: list indices must be integers, not NoneType"
    | some last =>
      match patchArg code last (pc - last) with
      | .error e => .error e
      | .ok code2 => .ok { st with code := code2, pc := pc }
  else
    let last := st.pc
    let code := st.code ++ [⟨st.pc, .jmp, none, term⟩]
    let pc := st.pc + 1
    let word := strDrop1 term.name
    .ok { st with
           code := code, pc := pc, last_word_def_jmp_pc := some last,
           word_def_pc := assocSet st.word_def_pc word pc }

/-- `var_op_append`.  For the array form `name-K` nothing is emitted: only a
`{pc, size}` record is appended, with `pc` pointing at whatever instruction
gets emitted next. -/
def var_op_append (term : Term) (st : TransState) : TransState :=
  match splitDash term.name with
  | [_] =>
    let variable_name := strDropLast term.name
    if strLastIs term.name '!' || strLastIs term.name '?' then
      let opcode : Opcode :=
        if strLastIs term.name '!' then .write_vardata else .read_vardata
      let code := st.code ++ [⟨st.pc, opcode, none, term⟩]
      let vars_pcs := assocAppend st.vars_pcs variable_name ⟨st.pc, 1⟩
      { st with code := code, vars_pcs := vars_pcs, pc := st.pc + 1 }
    else if strLastIs term.name '&' then
      let code := st.code ++ [⟨st.pc, .number, none, term⟩]
      let vars_pcs := assocAppend st.vars_pcs variable_name ⟨st.pc, 1⟩
      let pc := st.pc + 1
      let code := code ++ [⟨pc, .sum_top_with_vdsp, none, term⟩]
      { st with code := code, vars_pcs := vars_pcs, pc := pc + 1 }
    else st  -- Python: assert "fatal exception" (truthy no-op), nothing emitted
  | [p0, p1] =>
    let variable_name := p0
    let size := (str_to_int? p1).getD 0  -- the guard guarantees a number
    { st with vars_pcs := assocAppend st.vars_pcs variable_name ⟨st.pc, size⟩ }
  | _ => st  -- unreachable: the guard rejects three or more parts

/-- `term_instruction_append`.  A term matching none of the classifier guards
only executes a truthy `assert` and is silently skipped. -/
def term_instruction_append (term : Term) (st : TransState) :
    Except String TransState :=
  if is_correct_number term.name then
    .ok { st with
           code := st.code ++ [⟨st.pc, .number, str_to_int? term.name, term⟩],
           pc := st.pc + 1 }
  else if is_sign_word term.name || is_comparator_word term.name then
    let (code, pc) := sign_word_or_comparator_append term st.code st.pc
    .ok { st with code := code, pc := pc }
  else if is_user_word term.name then
    word_append term st
  else if is_system_variable_operation term.name || is_variable_operation term.name then
    .ok (var_op_append term st)
  else if is_correct_word_def_term term.name then
    word_def_append term st
  else .ok st

/-- The per-term loop of `translate`. -/
def lowerTerms : List Term → TransState → Except String TransState
  | [], st => .ok st
  | term :: rest, st =>
    match term_instruction_append term st with
    | .error e => .error e
    | .ok st2 => lowerTerms rest st2

/-- The end-of-pass word-call patch loop of `translate`
(`for word, pcs in word_jmp_pcs.items(): …`); a call to an undefined word
raises KeyError. -/
def patchWordCalls (code : List Instruction) (word_def_pc : List (String × Int)) :
    List (String × List Int) → Except String (List Instruction)
  | [] => .ok code
  | (word, pcs) :: rest =>
    match assocLookup word_def_pc word with
    | none => .error "KeyError"
    | some def_pc =>
      match patchCallList code def_pc pcs with
      | .error e => .error e
      | .ok code2 => patchWordCalls code2 word_def_pc rest
where
  patchCallList (code : List Instruction) (def_pc : Int) :
      List Int → Except String (List Instruction)
    | [] => .ok code
    | pc :: pcs =>
      match patchArg code pc (def_pc - pc) with
      | .error e => .error e
      | .ok code2 => patchCallList code2 def_pc pcs

/-- Patch every recorded reference of one variable with its slot offset
(the first inner loop of the variable-allocation pass). -/
def patchVarRefs (code : List Instruction) (offset : Int) :
    List VarRef → Except String (List Instruction)
  | [] => .ok code
  | r :: rest =>
    match patchArg code r.pc offset with
    | .error e => .error e
    | .ok code2 => patchVarRefs code2 offset rest

/-- The slot width reserved for a variable: the maximum of the sizes of its
recorded references (the second inner loop, starting from `max_size = 0`). -/
def maxSize (refs : List VarRef) : Int :=
  refs.foldl (fun m r => max m r.size) 0

/-- The variable-allocation pass of `translate`: walk `vars_pcs` in insertion
order, patch every recorded reference of each variable with the running cell
count, then advance the count by the variable's maximal size. -/
def allocate_vars (code : List Instruction) (var_busy_cells_count : Int) :
    List (String × List VarRef) → Except String (List Instruction × Int)
  | [] => .ok (code, var_busy_cells_count)
  | (_, refs) :: rest =>
    match patchVarRefs code var_busy_cells_count refs with
    | .error e => .error e
    | .ok code2 => allocate_vars code2 (var_busy_cells_count + maxSize refs) rest

/-- `translate`, starting from the tokenized term stream (the `lines_to_terms`
tokenizer is outside the scope of the claims settled here). -/
def translateTerms (terms : List Term) : Except String (List Instruction) :=
  match code_correctness_check terms with
  | .error e => .error e
  | .ok () =>
    let terms2 := replace_complex_terms terms
    match lowerTerms terms2 initTransState with
    | .error e => .error e
    | .ok st =>
      match patchWordCalls st.code st.word_def_pc st.word_jmp_pcs with
      | .error e => .error e
      | .ok code2 =>
        match allocate_vars code2 0 st.vars_pcs with
        | .error e => .error e
        | .ok (code3, _) =>
          .ok (code3 ++ [⟨(code3.length : Int), .halt, none, ⟨-1, -1, ""⟩⟩])

/-- Whether a translation attempt failed. -/
def isBad {α : Type} : Except String α → Bool
  | .error _ => true
  | .ok _ => false

/-! ### Observation helpers and concrete fixtures -/

/-- The state of the driver right after `simulation` boots the machine and
before the first iteration of the `do_simulation` loop. -/
def bootSim (data_memory_size : Int) (var_memory_size : Int)
    (ports_description : List (List Instruction × List Instruction))
    (program : List Instruction) : SimState :=
  { cu := { data_path := initDataPath data_memory_size var_memory_size ports_description program,
            is_in_interruption := false, ticks_counter := 0, instructions_counter := 0 },
    output := [] }

/-- Observe the machine after the first `n` iterations of the `do_simulation`
loop (in the runs observed this way, the tick limit is never reached within
`n` iterations, so each iteration is exactly one `do_simulation_step`). -/
def stepDrive (sched : List (Int × Int)) : Nat → SimState → SimState
  | 0, s => s
  | n + 1, s =>
    match do_simulation_step sched s with
    | .cont s2 => stepDrive sched n s2
    | .halted s2 => s2
    | .fatalRes s2 => s2

/-- The control unit after one `next_tick_execute` call (projecting away the
stopped / fatal distinction). -/
def nteStepCU (cu : ControlUnit) : ControlUnit :=
  match next_tick_execute cu with
  | .ran c _ => c
  | .stopped c => c
  | .fatal c => c

/-- Extract the program from a successful translation. -/
def okOr {α : Type} (e : Except String α) (d : α) : α :=
  match e with
  | .ok a => a
  | .error _ => d

/-- A source term at line 1 (the positions play no role in the claims). -/
def tok (name : String) : Term := ⟨1, 1, name⟩

/-- A HALT-only handler program. -/
def haltH : List Instruction := [⟨0, .halt, none, noTerm⟩]

/-- A two-instruction HALT handler (used to give the two handlers of a port
distinguishable start PCs). -/
def halt2H : List Instruction := [⟨0, .halt, none, noTerm⟩, ⟨1, .halt, none, noTerm⟩]

/-- C1/C5 fixture: one port whose write handler is `haltH` (start PC 2) and
whose read handler is `halt2H` (start PC 3); main program a bare HALT. -/
def c1runA : SimState := bootSim 30 2 [(haltH, halt2H)] haltH

/-- C1/C5 fixture: a device datum scheduled at tick 0. -/
def c1schedA : List (Int × Int) := [(0, 65)]

/-- C1 fixture: a main program that performs a CPU write to port 0. -/
def c1progB : List Instruction :=
  [⟨0, .number, some 65, noTerm⟩, ⟨1, .write_port, some 0, noTerm⟩, ⟨2, .halt, none, noTerm⟩]

/-- C1 fixture: the machine booted on `c1progB` with the same handlers. -/
def c1runB : SimState := bootSim 30 2 [(haltH, halt2H)] c1progB

/-- C3 fixture: a write handler that itself performs a CPU write
(`NUMBER 65; WRITE_PORT 0; HALT`). -/
def c3wh : List Instruction :=
  [⟨0, .number, some 65, noTerm⟩, ⟨1, .write_port, some 0, noTerm⟩, ⟨2, .halt, none, noTerm⟩]

/-- C3 fixture: machine with write handler `c3wh` (start 2) and read handler
`haltH` (start 5); main program a bare HALT. -/
def c3run : SimState := bootSim 40 2 [(c3wh, haltH)] haltH

/-- C3 fixture: a device datum scheduled at tick 0. -/
def c3sched : List (Int × Int) := [(0, 100)]

/-- C4 fixture: a PUT instruction. -/
def putI : Instruction := ⟨0, .put, none, noTerm⟩

/-- C4 fixture: memory with the PUT at address 0 and distinguishable data
cells at 2, 7 and 8. -/
def c4mem : Memory :=
  ((((List.replicate 12 (Cell.num 0)).set 0 (.instr putI)).set 2 (.num 55)).set 7
      (.num 77)).set 8 (.num 44)

/-- C4 fixture: an operand stack headed at 10 with TOP = 3 (the PUT offset)
and NEXT = 99 (the payload). -/
def c4cu : ControlUnit :=
  { data_path :=
      { data_memory := c4mem, instruction_pointer := 0, top := 3, next := 99,
        pra_shp_pointer := 30, od_stack_start := 4, od_sh_pointer := 10,
        instruction_stage_number := 1, ports := [], var_data_start_point := 0,
        cur_tick_regs_state := ⟨0, 0, 0, 0, 0⟩ },
    is_in_interruption := false, ticks_counter := 0, instructions_counter := 0 }

/-- C4 fixture: the machine after the two ticks of the PUT. -/
def c4go : ControlUnit := nteStepCU (nteStepCU c4cu)

/-- C6 fixture: a program whose third instruction is a two-tick SUM. -/
def c6prog : List Instruction :=
  [⟨0, .number, some 1, noTerm⟩, ⟨1, .number, some 2, noTerm⟩,
   ⟨2, .sum, none, noTerm⟩, ⟨3, .halt, none, noTerm⟩]

/-- C6 fixture: the machine booted on `c6prog` with HALT-only handlers. -/
def c6run : SimState := bootSim 40 2 [(haltH, haltH)] c6prog

/-- C6 fixture: a device datum scheduled at tick 3 — in the middle of the
SUM (after its first tick, when ISN = 2). -/
def c6sched : List (Int × Int) := [(3, 65)]

/-- C7 fixture: an EQ_NOT_CONSUMING_RET instruction. -/
def eqncrI : Instruction := ⟨0, .eq_not_consuming_ret, none, noTerm⟩

/-- C7 fixture: memory with the instruction at 0 and the two compared
return-stack cells `b` (at 4, the stack top) and `a` (at 5, beneath it). -/
def c7mem (a b : Int) : Memory :=
  [.instr eqncrI, .num 0, .num 0, .num 0, .num b, .num a]

/-- C7 fixture: the control unit about to execute the EQ_NOT_CONSUMING_RET,
with PRA_SHP = 4 and arbitrary TOP/NEXT registers. -/
def c7cu (a b t n : Int) : ControlUnit :=
  { data_path :=
      { data_memory := c7mem a b, instruction_pointer := 0, top := t, next := n,
        pra_shp_pointer := 4, od_stack_start := 2, od_sh_pointer := 2,
        instruction_stage_number := 1, ports := [], var_data_start_point := 0,
        cur_tick_regs_state := ⟨0, 0, 0, 0, 0⟩ },
    is_in_interruption := false, ticks_counter := 0, instructions_counter := 0 }

/-- C7 fixture: the machine after the three ticks of EQ_NOT_CONSUMING_RET. -/
def c7go (a b t n : Int) : ControlUnit := nteStepCU (nteStepCU (nteStepCU (c7cu a b t n)))

/-- C9 fixture: a HAS_PORT_FILLED_WITH_DEVICE instruction for port 0. -/
def hpfdI : Instruction := ⟨0, .has_port_filled_with_device, some 0, noTerm⟩

/-- C9 fixture: port 0 filled by the device (and not by the CPU), the
instruction at address 0. -/
def c9cu : ControlUnit :=
  { data_path :=
      { data_memory := (List.replicate 12 (Cell.num 0)).set 0 (.instr hpfdI),
        instruction_pointer := 0, top := 3, next := 4,
        pra_shp_pointer := 30, od_stack_start := 4, od_sh_pointer := 10,
        instruction_stage_number := 1, ports := [⟨true, false, 9⟩],
        var_data_start_point := 0, cur_tick_regs_state := ⟨0, 0, 0, 0, 0⟩ },
    is_in_interruption := false, ticks_counter := 0, instructions_counter := 0 }

/-- C9 fixture: the machine after the single tick of the instruction. -/
def c9go : ControlUnit := nteStepCU c9cu

/-- C2 fixture: a token stream containing a second `else` inside one `if`,
a `:` nested inside an unclosed word definition, and no closing `;`. -/
def c2okToks : List Term :=
  [tok ":a", tok "1", tok "if", tok "2", tok "else", tok "3", tok "else",
   tok "4", tok "then", tok ":b", tok "5"]

/-- C8 fixture: the token stream of the claim's program `48 58 doi emit loop`. -/
def c8toksA : List Term := [tok "48", tok "58", tok "doi", tok "emit", tok "loop"]

/-- C8 fixture: its compiled program. -/
def c8progA : List Instruction := okOr (translateTerms c8toksA) []

/-- C8 fixture: a 40-tick run of the claim's program with an empty input
schedule and HALT-only handlers. -/
def c8runA : SimState × Bool := simulation 60 2 [(haltH, haltH)] c8progA [] 40 80

/-- C8 fixture: the same program with the two bounds swapped:
`58 48 doi emit loop`. -/
def c8toksB : List Term := [tok "58", tok "48", tok "doi", tok "emit", tok "loop"]

/-- C8 fixture: its compiled program. -/
def c8progB : List Instruction := okOr (translateTerms c8toksB) []

/-- C8 fixture: a full run of the swapped-bounds program. -/
def c8runB : SimState × Bool := simulation 60 2 [(haltH, haltH)] c8progB [] 1000 400

/-- C10 fixture: two `baz?` references around an array declaration `foo-3`
(which records the pc of the next emitted instruction). -/
def c10toks : List Term := [tok "baz?", tok "foo-3", tok "baz?"]

/-- C10 fixture: the compiled program. -/
def c10code : List Instruction := okOr (translateTerms c10toks) []


/-! ### Definitions used by the general claim theorems -/

/-- The contribution of one token to the running close-minus-open balance of
the structural checker: +1 for a block-closing word, −1 for a block-opening
word, 0 otherwise. -/
def blockDelta (name : String) : Int :=
  if is_for_cycle_end name || is_while_cycle_end name || name = "then" then 1
  else if is_for_cycle_begin name || is_while_cycle_begin name || name = "if" then -1
  else 0

/-- The close-minus-open balance of a token sequence; a positive balance on
some prefix witnesses an unmatched block close. -/
def closersExcess (ts : List Term) : Int := (ts.map (fun t => blockDelta t.name)).sum

/-- The effect of one user-word token on the checker's open-block stack: a
total mirror of the begin/middle/end checks (`do`/`doi` push a for-block,
`begin` a while-block, `if` an if-block; `else` replaces the top block by an
if-block that had its `else`; `loop`/`mloop`/`until`/`then` pop; everything
else leaves the stack unchanged).  On the inputs where the checker raises —
`else` or a closer on an empty stack, `leave` with no open loop — the value
returned here is irrelevant, because compilation has already failed. -/
def blockStep (name : String) (blocks : List Block) : List Block :=
  if is_for_cycle_begin name then .forB :: blocks
  else if is_while_cycle_begin name then .whileB :: blocks
  else if name = "if" then .ifB false :: blocks
  else if name = "else" then
    match blocks with
    | [] => []
    | _ :: bs => .ifB true :: bs
  else if is_for_cycle_end name || is_while_cycle_end name || name = "then" then blocks.tail
  else blocks

/-- The checker's open-block stack after scanning a prefix of the token
stream (non-user-word tokens are skipped, exactly as in the checker): this
is the stack of blocks enclosing the position right after the prefix. -/
def blocksAfter (ts : List Term) (blocks : List Block) : List Block :=
  ts.foldl (fun bs t => if is_user_word t.name then blockStep t.name bs else bs) blocks

/-- The slot offset a variable at position `i` of `vars_pcs` receives: the sum
of the maximal sizes of the variables allocated before it. -/
def offsetsBefore (vars : List (String × List VarRef)) (i : Nat) : Int :=
  ((vars.take i).map (fun e => maxSize e.2)).sum

/-- Witness fixture: a driver state whose main port is filled by the CPU. -/
def fwcState : SimState := { cu := { c1runA.cu with data_path := { c1runA.cu.data_path with ports := [⟨false, true, 65⟩] } }, output := [] }

/-- Witness fixture: the `c1runA` machine marked as already inside an
interruption. -/
def inIntState : SimState := { cu := { c1runA.cu with is_in_interruption := true }, output := [] }

/-- Witness fixture for the slot-allocation theorem: two variables with one
recorded reference each. -/
def c10wVars : List (String × List VarRef) := [("a", [⟨0, 1⟩]), ("b", [⟨1, 2⟩])]

/-- Witness fixture: the code the two references point into. -/
def c10wCode : List Instruction :=
  [⟨0, .read_vardata, none, noTerm⟩, ⟨1, .write_vardata, none, noTerm⟩]

/-- Witness fixture: the code after allocation (`a` gets offset 0 and one
cell, `b` gets offset 1 and two cells; the final count is 3). -/
def c10wCode2 : List Instruction :=
  [⟨0, .read_vardata, some 0, noTerm⟩, ⟨1, .write_vardata, some 1, noTerm⟩]

/-! ### Claim theorems: concrete counterexamples and code-bug evaluations -/

set_option maxHeartbeats 4000000 in
/-- C1, counterexample.  The handler table of the fixture holds the pair
(write-handler start 2, read-handler start 3).  A device-wrote interrupt
(input scheduled at tick 0) dispatches to PC 2 — the FIRST start-PC of the
pair, not the second as the claim states — while a CPU-wrote interrupt
(the program executes WRITE_PORT) dispatches to PC 3, the second start-PC,
not the first. -/
theorem C1_counterexample :
    (memGet (initDataPath 30 2 [(haltH, halt2H)] haltH).data_memory 0).toInt = 2 ∧
    (memGet (initDataPath 30 2 [(haltH, halt2H)] haltH).data_memory 1).toInt = 3 ∧
    (stepDrive c1schedA 1 c1runA).cu.data_path.instruction_pointer = 2 ∧
    (stepDrive [] 2 c1runB).cu.data_path.instruction_pointer = 3 := by decide

set_option maxHeartbeats 4000000 in
/-- C3, counterexample.  After the device-wrote dispatch of tick 0 the
machine is inside an interruption (second conjunct), yet when the running
write handler itself executes WRITE_PORT, the driver immediately dispatches
the port's other handler (IP jumps to its start PC 5) and pushes a second
(IP, ISN) frame (PRA_SHP drops from 37 to 35) — a nested interrupt, before
the first handler has returned via HALT. -/
theorem C3_counterexample :
    (stepDrive c3sched 1 c3run).cu.is_in_interruption = true ∧
    (stepDrive c3sched 2 c3run).cu.is_in_interruption = true ∧
    (stepDrive c3sched 2 c3run).cu.data_path.pra_shp_pointer = 37 ∧
    (stepDrive c3sched 3 c3run).cu.data_path.instruction_pointer = 5 ∧
    (stepDrive c3sched 3 c3run).cu.data_path.pra_shp_pointer = 35 := by decide

set_option maxHeartbeats 4000000 in
/-- C5, counterexample.  The device-wrote dispatch of tick 0 jumps into the
handler (IP = 2) and advances the tick counter from 0 to 3 — three ticks per
interrupt dispatch, not the two that the claim states. -/
theorem C5_counterexample :
    (stepDrive c1schedA 1 c1runA).cu.ticks_counter = 3 ∧
    (stepDrive c1schedA 1 c1runA).cu.data_path.instruction_pointer = 2 ∧
    ((3 : Int) ≠ 0 + 2) := by decide

set_option maxHeartbeats 4000000 in
/-- C6, counterexample.  The input scheduled at tick 3 interrupts the SUM
between its two ticks (saved ISN = 2).  The handler's HALT is then executed
and completes (the executed tick is the instruction's last one), after which
the stage number is the restored value 2, not 1. -/
theorem C6_counterexample :
    (current_instruction (stepDrive c6sched 4 c6run).cu).opcode = Opcode.halt ∧
    (stepDrive c6sched 4 c6run).cu.is_in_interruption = true ∧
    (match next_tick_execute (stepDrive c6sched 4 c6run).cu with
     | .ran _ b => b
     | _ => false) = true ∧
    (stepDrive c6sched 5 c6run).cu.data_path.instruction_stage_number = 2 := by decide

set_option maxHeartbeats 4000000 in
/-- C7, counterexample.  After the three ticks of EQ_NOT_CONSUMING_RET the
return-stack head pointer has moved from 4 to 3 — the stack is one cell
deeper, not unchanged — and the old top slot (cell 4) still holds its old
value 7 rather than the 0/−1 comparison flag the claim says is written
there. -/
theorem C7_counterexample :
    (c7go 5 7 0 0).data_path.pra_shp_pointer = 3 ∧
    ((3 : Int) ≠ 4) ∧
    memGet (c7go 5 7 0 0).data_path.data_memory 4 = Cell.num 7 := by decide

set_option maxHeartbeats 4000000 in
/-- C7, amended: EQ_NOT_CONSUMING_RET takes three ticks, compares the two
top return-stack cells without modifying them, and PUSHES the comparison
flag (0 when equal, −1 otherwise) as a new return-stack top — the stack
grows by one cell — while also leaving the flag in the TOP register (the
stage-3 TOP reload silently does nothing for this opcode). -/
theorem C7_amended (a b t n : Int) :
    (c7go a b t n).data_path.pra_shp_pointer = 3 ∧
    memGet (c7go a b t n).data_path.data_memory 5 = Cell.num a ∧
    memGet (c7go a b t n).data_path.data_memory 4 = Cell.num b ∧
    memGet (c7go a b t n).data_path.data_memory 3 = Cell.num (if a = b then 0 else -1) ∧
    (c7go a b t n).data_path.top = (if a = b then 0 else -1) ∧
    (c7go a b t n).data_path.instruction_pointer = 1 ∧
    (c7go a b t n).ticks_counter = 3 ∧
    (c7go a b t n).data_path.instruction_stage_number = 1 ∧
    (c7go a b t n).data_path.od_sh_pointer = 2 :=
  ⟨rfl, rfl, rfl, rfl, rfl, rfl, rfl, rfl, rfl⟩

set_option maxHeartbeats 4000000 in
/-- C4, code-bug evaluation.  From TOP = 3 (offset), NEXT = 99 (payload),
OD_SHP = 10: tick 1 stores the payload at 10 − 3 − 2 = 5 and drops OD_SHP to
8; tick 2 reloads TOP from the new head (cell 8 = 44) and advances IP — all
as the claim states — but NEXT is reloaded from `mem[TOP − 1]` = cell 2
(value 55) instead of `mem[OD_SHP − 1]` = cell 7 (value 77). -/
theorem C4_code_bug_eval :
    (memGet c4go.data_path.data_memory 5 = Cell.num 99) ∧
    c4go.data_path.od_sh_pointer = 8 ∧
    c4go.data_path.top = 44 ∧
    c4go.data_path.instruction_pointer = 1 ∧
    c4go.data_path.next = 55 ∧
    ((55 : Int) ≠ 77) ∧
    (memGet c4go.data_path.data_memory 7 = Cell.num 77) := by decide

set_option maxHeartbeats 4000000 in
/-- C9, code-bug evaluation.  With port 0 filled by the device and not by
the CPU, HAS_PORT_FILLED_WITH_DEVICE latches the device flag 0 into TOP but
stores the CPU flag −1 into the new stack head cell: after the instruction
TOP ≠ mem[OD_SHP], breaking the TOP-mirrors-the-stack-head invariant. -/
theorem C9_code_bug_eval :
    c9go.data_path.top = 0 ∧
    c9go.data_path.od_sh_pointer = 11 ∧
    memGet c9go.data_path.data_memory 11 = Cell.num (-1) ∧
    c9go.data_path.top ≠ (memGet c9go.data_path.data_memory c9go.data_path.od_sh_pointer).toInt := by
  decide

set_option maxHeartbeats 4000000 in
/-- C2, counterexample.  The token stream `:a 1 if 2 else 3 else 4 then :b 5`
contains a second `else` inside one `if`, a `:` nested in an unclosed word
definition, and no `;` at all — yet `translate` returns a program: the
structural checks on these paths are Python `assert <string>` statements,
which never fail. -/
theorem C2_counterexample : isBad (translateTerms c2okToks) = false := by decide

set_option maxHeartbeats 4000000 in
/-- C8, counterexample.  Compiling and running the claim's program
`48 58 doi emit loop` (empty input schedule, HALT-only handlers): the first
byte written to the main port is 58 (the character ':'), not 48 (the digit
'0') — the counter of the loop starts at the second operand, so the expected
output `0123456789` is not produced. -/
theorem C8_counterexample :
    c8runA.1.output.head? = some 58 ∧ some (58 : Int) ≠ some 48 := by decide

set_option maxHeartbeats 4000000 in
/-- C8, amended: with the loop bounds supplied as limit-then-start, the
program `58 48 doi emit loop` (empty input schedule, HALT-only handlers)
halts normally and prints exactly the digits `0123456789` — the loop body
runs limit − start = 10 times, counting up from the second operand 48 to
the first operand 58. -/
theorem C8_amended :
    c8runB.1.output = [48, 49, 50, 51, 52, 53, 54, 55, 56, 57] ∧
    c8runB.2 = true ∧
    c8runB.1.output.length = 58 - 48 := by decide

set_option maxHeartbeats 4000000 in
/-- C10, counterexample.  Compiling `baz? foo-3 baz?`: the declaration
`foo-3` records the pc of the next emitted instruction, which is the second
`baz?` reference; when slots are allocated, `foo`'s patch overwrites that
reference's arg.  The two `baz?` references end with different args (0 and
1), so they do not both receive `baz`'s slot offset. -/
theorem C10_counterexample :
    (c10code.get? 0).map Instruction.opcode = some Opcode.read_vardata ∧
    (c10code.get? 1).map Instruction.opcode = some Opcode.read_vardata ∧
    (c10code.get? 0).map Instruction.arg = some (some 0) ∧
    (c10code.get? 1).map Instruction.arg = some (some 1) := by decide

/-! ### General lemmas and the remaining claim theorems -/
/-- Helper: whenever the common tail of `next_tick_execute` reports the last
tick of an instruction, the stage number has been reset to 1. -/
theorem nte_finish_last_isn (cu : ControlUnit) (r : DataPath × Bool) (c : ControlUnit)
    (h : nte_finish cu r = NTERes.ran c true) :
    c.data_path.instruction_stage_number = 1 := by
  unfold nte_finish at h
  by_cases hb : r.2 = true
  · rw [if_pos hb] at h
    cases h
    rfl
  · rw [if_neg hb] at h
    injection h with h1 h2
    exact Bool.noConfusion h2

/-- C6, amended: after each completed instruction the stage number ISN
equals 1 — for every instruction except a HALT inside an interrupt handler,
which instead restores the ISN saved at dispatch time (the HALT branch
returns before the reset). -/
theorem C6_amended (cu cu2 : ControlUnit)
    (h : next_tick_execute cu = NTERes.ran cu2 true)
    (hop : (current_instruction cu).opcode ≠ Opcode.halt) :
    cu2.data_path.instruction_stage_number = 1 := by
  unfold next_tick_execute nte_dispatch at h
  revert h
  cases hco : (current_instruction cu).opcode <;> intro h <;>
    first
      | exact absurd hco hop
      | exact nte_finish_last_isn _ _ _ h
      | exact NTERes.noConfusion h

/-- C1, amended: a device-wrote interrupt (scheduled datum, no interruption
in progress) dispatches to the FIRST start-PC of the port's handler-table
pair (cell 0 for the main port), while a CPU-wrote interrupt (the driver
observes filled_with_cpu after a tick) dispatches to the SECOND start-PC
(cell 1). -/
theorem C1_amended (sched : List (Int × Int)) (s s2 : SimState) (v : Int)
    (h1 : schedLookup sched s.cu.ticks_counter = some v)
    (h2 : s.cu.is_in_interruption = false)
    (h3 : (getPort s2.cu.data_path.ports 0).filled_with_cpu = true) :
    do_simulation_step sched s = SimStepRes.cont (interruption_enter s v) ∧
    (interruption_enter s v).cu.data_path.instruction_pointer =
      (memGet s.cu.data_path.data_memory 0).toInt ∧
    (post_write_check s2).cu.data_path.instruction_pointer =
      (memGet s2.cu.data_path.data_memory 1).toInt := by
  refine ⟨?_, ?_, ?_⟩
  · unfold do_simulation_step
    rw [h1, h2]
    rfl
  · unfold interruption_enter step_in_port_interruption
    simp
  · simp [post_write_check, step_in_port_interruption, h3]

/-- C3, amended: a device write scheduled while an interruption is in
progress is dropped — the iteration behaves exactly as the plain execute
path — but a CPU write observed after a tick dispatches the port's second
handler immediately and unconditionally (the branch never consults
`is_in_interruption`), marking the machine as being in an interruption. -/
theorem C3_amended (sched : List (Int × Int)) (s s2 : SimState) (v : Int)
    (h1 : schedLookup sched s.cu.ticks_counter = some v)
    (h2 : s.cu.is_in_interruption = true)
    (h3 : (getPort s2.cu.data_path.ports 0).filled_with_cpu = true) :
    do_simulation_step sched s = exec_path s ∧
    (post_write_check s2).cu.is_in_interruption = true ∧
    (post_write_check s2).cu.data_path.instruction_pointer =
      (memGet s2.cu.data_path.data_memory 1).toInt := by
  refine ⟨?_, ?_, ?_⟩
  · unfold do_simulation_step
    rw [h1, h2]
    rfl
  · simp [post_write_check, step_in_port_interruption, h3]
  · simp [post_write_check, step_in_port_interruption, h3]

/-- C5, amended: each interrupt dispatch advances the tick counter by
exactly 3 ticks — both the device-wrote dispatch of the schedule branch and
the CPU-wrote dispatch of the post-execution check. -/
theorem C5_amended (sched : List (Int × Int)) (s s2 : SimState) (v : Int)
    (h1 : schedLookup sched s.cu.ticks_counter = some v)
    (h2 : s.cu.is_in_interruption = false)
    (h3 : (getPort s2.cu.data_path.ports 0).filled_with_cpu = true) :
    do_simulation_step sched s = SimStepRes.cont (interruption_enter s v) ∧
    (interruption_enter s v).cu.ticks_counter = s.cu.ticks_counter + 3 ∧
    (post_write_check s2).cu.ticks_counter = s2.cu.ticks_counter + 3 := by
  refine ⟨?_, ?_, ?_⟩
  · unfold do_simulation_step
    rw [h1, h2]
    rfl
  · unfold interruption_enter step_in_port_interruption
    simp
  · simp [post_write_check, step_in_port_interruption, h3]

/-- Unfolding lemma for the close-minus-open balance. -/
theorem closersExcess_cons (t : Term) (l : List Term) :
    closersExcess (t :: l) = blockDelta t.name + closersExcess l := by
  simp [closersExcess]

/-- Checker step on `loop`: pop a block, or fail on an empty stack. -/
theorem ccc_go_loop (ln lp : Int) (rest : List Term) (blocks : List Block) (wd : Bool) :
    ccc_go (⟨ln, lp, "loop"⟩ :: rest) blocks wd =
      (match blocks with
       | [] => Except.error "IndexError: pop from empty list"
       | _ :: bs => ccc_go rest bs wd) := by
  cases blocks <;> rfl

/-- Checker step on `mloop`: pop a block, or fail on an empty stack. -/
theorem ccc_go_mloop (ln lp : Int) (rest : List Term) (blocks : List Block) (wd : Bool) :
    ccc_go (⟨ln, lp, "mloop"⟩ :: rest) blocks wd =
      (match blocks with
       | [] => Except.error "IndexError: pop from empty list"
       | _ :: bs => ccc_go rest bs wd) := by
  cases blocks <;> rfl

/-- Checker step on `until`: pop a block, or fail on an empty stack. -/
theorem ccc_go_until (ln lp : Int) (rest : List Term) (blocks : List Block) (wd : Bool) :
    ccc_go (⟨ln, lp, "until"⟩ :: rest) blocks wd =
      (match blocks with
       | [] => Except.error "IndexError: pop from empty list"
       | _ :: bs => ccc_go rest bs wd) := by
  cases blocks <;> rfl

/-- Checker step on `then`: pop a block, or fail on an empty stack. -/
theorem ccc_go_then (ln lp : Int) (rest : List Term) (blocks : List Block) (wd : Bool) :
    ccc_go (⟨ln, lp, "then"⟩ :: rest) blocks wd =
      (match blocks with
       | [] => Except.error "IndexError: pop from empty list"
       | _ :: bs => ccc_go rest bs wd) := by
  cases blocks <;> rfl

/-- Checker step on `do`: push a for-block. -/
theorem ccc_go_do (ln lp : Int) (rest : List Term) (blocks : List Block) (wd : Bool) :
    ccc_go (⟨ln, lp, "do"⟩ :: rest) blocks wd = ccc_go rest (.forB :: blocks) wd := rfl

/-- Checker step on `doi`: push a for-block. -/
theorem ccc_go_doi (ln lp : Int) (rest : List Term) (blocks : List Block) (wd : Bool) :
    ccc_go (⟨ln, lp, "doi"⟩ :: rest) blocks wd = ccc_go rest (.forB :: blocks) wd := rfl

/-- Checker step on `begin`: push a while-block. -/
theorem ccc_go_begin (ln lp : Int) (rest : List Term) (blocks : List Block) (wd : Bool) :
    ccc_go (⟨ln, lp, "begin"⟩ :: rest) blocks wd = ccc_go rest (.whileB :: blocks) wd := rfl

/-- Checker step on `if`: push an if-block. -/
theorem ccc_go_if (ln lp : Int) (rest : List Term) (blocks : List Block) (wd : Bool) :
    ccc_go (⟨ln, lp, "if"⟩ :: rest) blocks wd = ccc_go rest (.ifB false :: blocks) wd := rfl

/-- Checker step on `else`: replace the top block by an if-block that had
its else (whatever the top block was), or fail on an empty stack. -/
theorem ccc_go_else (ln lp : Int) (rest : List Term) (blocks : List Block) (wd : Bool) :
    ccc_go (⟨ln, lp, "else"⟩ :: rest) blocks wd =
      (match blocks with
       | [] => Except.error "IndexError: blocks[-1] on empty list"
       | _ :: bs => ccc_go rest (.ifB true :: bs) wd) := by
  cases blocks <;> rfl

/-- The block check of a `leave` token succeeds exactly when some loop block
is open. -/
theorem if_not_proc_leave (blocks : List Block) :
    if_not_proc_block_check "leave" blocks =
      (if blocks.any Block.isLoop then .ok (true, blocks)
       else .error "Bad leave!") := by
  cases h : blocks.any Block.isLoop <;>
    · unfold if_not_proc_block_check if_block_begin_check if_block_middle_check
      rw [h]
      rfl

/-- Checker step on `leave`: proceed when a loop block is open, fail
otherwise. -/
theorem ccc_go_leave (ln lp : Int) (rest : List Term) (blocks : List Block) (wd : Bool) :
    ccc_go (⟨ln, lp, "leave"⟩ :: rest) blocks wd =
      (if blocks.any Block.isLoop then ccc_go rest blocks wd
       else Except.error "Bad leave!") := by
  have hnp := if_not_proc_leave blocks
  cases h : blocks.any Block.isLoop <;>
    · rw [h] at hnp
      simp only [ccc_go, hnp]
      rfl

/-- Any term whose name is none of the ten control words leaves the block
stack unchanged (possibly toggling the word-definition flag). -/
theorem ccc_go_other (t : Term) (rest : List Term) (blocks : List Block) (wd : Bool)
    (h1 : is_for_cycle_end t.name = false)
    (h2 : is_while_cycle_end t.name = false)
    (h3 : t.name ≠ "then")
    (h4 : is_for_cycle_begin t.name = false)
    (h5 : is_while_cycle_begin t.name = false)
    (h6 : t.name ≠ "if")
    (h7 : t.name ≠ "else")
    (h8 : t.name ≠ "leave") :
    ∃ wd2, ccc_go (t :: rest) blocks wd = ccc_go rest blocks wd2 := by
  by_cases hu : is_user_word t.name
  · have hnp : if_not_proc_block_check t.name blocks = .ok (false, blocks) := by
      unfold if_not_proc_block_check if_block_begin_check if_block_middle_check
        if_block_end_check
      simp [h1, h2, h3, h4, h5, h6, h7, h8]
    refine ⟨(if_proc_block_check t.name wd).2, ?_⟩
    simp [ccc_go, hu, hnp]
  · refine ⟨wd, ?_⟩
    simp [ccc_go, hu]


/-- If some prefix of the token stream closes more blocks than were opened
(beyond the blocks already on the stack), the structural checker fails. -/
theorem ccc_go_excess (ts : List Term) : ∀ (blocks : List Block) (wd : Bool),
    (∃ n, (blocks.length : Int) < closersExcess (ts.take n)) →
    isBad (ccc_go ts blocks wd) = true := by
  induction ts with
  | nil =>
    intro blocks wd ⟨n, hn⟩
    simp [closersExcess] at hn
    omega
  | cons t rest ih =>
    obtain ⟨ln, lp, name⟩ := t
    intro blocks wd ⟨n, hn⟩
    match n with
    | 0 =>
      simp [closersExcess] at hn
      omega
    | m + 1 =>
      rw [List.take_succ_cons, closersExcess_cons] at hn
      by_cases e1 : name = "loop"
      · subst e1
        rw [ccc_go_loop]
        cases blocks with
        | nil => rfl
        | cons b bs =>
          refine ih bs wd ⟨m, ?_⟩
          rw [show (Term.mk ln lp "loop").name = "loop" from rfl,
              show blockDelta "loop" = 1 from by decide] at hn
          simp only [List.length_cons] at hn
          push_cast at hn ⊢
          omega
      · by_cases e2 : name = "mloop"
        · subst e2
          rw [ccc_go_mloop]
          cases blocks with
          | nil => rfl
          | cons b bs =>
            refine ih bs wd ⟨m, ?_⟩
            rw [show (Term.mk ln lp "mloop").name = "mloop" from rfl,
                show blockDelta "mloop" = 1 from by decide] at hn
            simp only [List.length_cons] at hn
            push_cast at hn ⊢
            omega
        · by_cases e3 : name = "until"
          · subst e3
            rw [ccc_go_until]
            cases blocks with
            | nil => rfl
            | cons b bs =>
              refine ih bs wd ⟨m, ?_⟩
              rw [show (Term.mk ln lp "until").name = "until" from rfl,
                  show blockDelta "until" = 1 from by decide] at hn
              simp only [List.length_cons] at hn
              push_cast at hn ⊢
              omega
          · by_cases e4 : name = "then"
            · subst e4
              rw [ccc_go_then]
              cases blocks with
              | nil => rfl
              | cons b bs =>
                refine ih bs wd ⟨m, ?_⟩
                rw [show (Term.mk ln lp "then").name = "then" from rfl,
                    show blockDelta "then" = 1 from by decide] at hn
                simp only [List.length_cons] at hn
                push_cast at hn ⊢
                omega
            · by_cases e5 : name = "do"
              · subst e5
                rw [ccc_go_do]
                refine ih (.forB :: blocks) wd ⟨m, ?_⟩
                rw [show (Term.mk ln lp "do").name = "do" from rfl,
                    show blockDelta "do" = -1 from by decide] at hn
                simp only [List.length_cons]
                push_cast at hn ⊢
                omega
              · by_cases e6 : name = "doi"
                · subst e6
                  rw [ccc_go_doi]
                  refine ih (.forB :: blocks) wd ⟨m, ?_⟩
                  rw [show (Term.mk ln lp "doi").name = "doi" from rfl,
                      show blockDelta "doi" = -1 from by decide] at hn
                  simp only [List.length_cons]
                  push_cast at hn ⊢
                  omega
                · by_cases e7 : name = "begin"
                  · subst e7
                    rw [ccc_go_begin]
                    refine ih (.whileB :: blocks) wd ⟨m, ?_⟩
                    rw [show (Term.mk ln lp "begin").name = "begin" from rfl,
                        show blockDelta "begin" = -1 from by decide] at hn
                    simp only [List.length_cons]
                    push_cast at hn ⊢
                    omega
                  · by_cases e8 : name = "if"
                    · subst e8
                      rw [ccc_go_if]
                      refine ih (.ifB false :: blocks) wd ⟨m, ?_⟩
                      rw [show (Term.mk ln lp "if").name = "if" from rfl,
                          show blockDelta "if" = -1 from by decide] at hn
                      simp only [List.length_cons]
                      push_cast at hn ⊢
                      omega
                    · by_cases e9 : name = "else"
                      · subst e9
                        rw [ccc_go_else]
                        cases blocks with
                        | nil => rfl
                        | cons b bs =>
                          refine ih (.ifB true :: bs) wd ⟨m, ?_⟩
                          rw [show (Term.mk ln lp "else").name = "else" from rfl,
                              show blockDelta "else" = 0 from by decide] at hn
                          simp only [List.length_cons] at hn ⊢
                          push_cast at hn ⊢
                          omega
                      · by_cases e10 : name = "leave"
                        · subst e10
                          rw [ccc_go_leave]
                          cases hA : blocks.any Block.isLoop
                          · rfl
                          · rw [show (Term.mk ln lp "leave").name = "leave" from rfl,
                                show blockDelta "leave" = 0 from by decide] at hn
                            simpa using ih blocks wd ⟨m, by omega⟩
                        · have h1 : is_for_cycle_end name = false := by
                            simp [is_for_cycle_end, e1, e2]
                          have h2 : is_while_cycle_end name = false := by
                            simp [is_while_cycle_end, e3]
                          have h4 : is_for_cycle_begin name = false := by
                            simp [is_for_cycle_begin, e5, e6]
                          have h5 : is_while_cycle_begin name = false := by
                            simp [is_while_cycle_begin, e7]
                          obtain ⟨wd2, hw⟩ :=
                            ccc_go_other ⟨ln, lp, name⟩ rest blocks wd h1 h2 e4 h4 h5 e8 e9 e10
                          rw [hw]
                          refine ih blocks wd2 ⟨m, ?_⟩
                          have hd : blockDelta (Term.mk ln lp name).name = 0 := by
                            unfold blockDelta
                            simp [h1, h2, h4, h5, e4, e8]
                          rw [hd] at hn
                          omega

/-- Unfolding lemma: scanning a first token transforms the stack by
`blockStep` when the token is a user word. -/
theorem blocksAfter_cons (t : Term) (ts : List Term) (blocks : List Block) :
    blocksAfter (t :: ts) blocks =
      blocksAfter ts (if is_user_word t.name then blockStep t.name blocks else blocks) := rfl

/-- Scanning a prefix of the token stream either fails the checker outright
or continues on the rest of the stream from the stack computed by
`blocksAfter` (with some word-definition flag). -/
theorem ccc_go_append (pre : List Term) : ∀ (rest : List Term) (blocks : List Block) (wd : Bool),
    (∃ wd2, ccc_go (pre ++ rest) blocks wd = ccc_go rest (blocksAfter pre blocks) wd2) ∨
    isBad (ccc_go (pre ++ rest) blocks wd) = true := by
  induction pre with
  | nil =>
    intro rest blocks wd
    exact Or.inl ⟨wd, rfl⟩
  | cons t pre ih =>
    obtain ⟨ln, lp, name⟩ := t
    intro rest blocks wd
    rw [List.cons_append]
    by_cases e1 : name = "loop"
    · subst e1
      rw [ccc_go_loop]
      cases blocks with
      | nil => exact Or.inr rfl
      | cons b bs =>
        rw [show blocksAfter (⟨ln, lp, "loop"⟩ :: pre) (b :: bs) = blocksAfter pre bs from rfl]
        exact ih rest bs wd
    · by_cases e2 : name = "mloop"
      · subst e2
        rw [ccc_go_mloop]
        cases blocks with
        | nil => exact Or.inr rfl
        | cons b bs =>
          rw [show blocksAfter (⟨ln, lp, "mloop"⟩ :: pre) (b :: bs) = blocksAfter pre bs from
            rfl]
          exact ih rest bs wd
      · by_cases e3 : name = "until"
        · subst e3
          rw [ccc_go_until]
          cases blocks with
          | nil => exact Or.inr rfl
          | cons b bs =>
            rw [show blocksAfter (⟨ln, lp, "until"⟩ :: pre) (b :: bs) = blocksAfter pre bs from
              rfl]
            exact ih rest bs wd
        · by_cases e4 : name = "then"
          · subst e4
            rw [ccc_go_then]
            cases blocks with
            | nil => exact Or.inr rfl
            | cons b bs =>
              rw [show blocksAfter (⟨ln, lp, "then"⟩ :: pre) (b :: bs) = blocksAfter pre bs from
                rfl]
              exact ih rest bs wd
          · by_cases e5 : name = "do"
            · subst e5
              rw [ccc_go_do]
              rw [show blocksAfter (⟨ln, lp, "do"⟩ :: pre) blocks =
                blocksAfter pre (.forB :: blocks) from rfl]
              exact ih rest (.forB :: blocks) wd
            · by_cases e6 : name = "doi"
              · subst e6
                rw [ccc_go_doi]
                rw [show blocksAfter (⟨ln, lp, "doi"⟩ :: pre) blocks =
                  blocksAfter pre (.forB :: blocks) from rfl]
                exact ih rest (.forB :: blocks) wd
              · by_cases e7 : name = "begin"
                · subst e7
                  rw [ccc_go_begin]
                  rw [show blocksAfter (⟨ln, lp, "begin"⟩ :: pre) blocks =
                    blocksAfter pre (.whileB :: blocks) from rfl]
                  exact ih rest (.whileB :: blocks) wd
                · by_cases e8 : name = "if"
                  · subst e8
                    rw [ccc_go_if]
                    rw [show blocksAfter (⟨ln, lp, "if"⟩ :: pre) blocks =
                      blocksAfter pre (.ifB false :: blocks) from rfl]
                    exact ih rest (.ifB false :: blocks) wd
                  · by_cases e9 : name = "else"
                    · subst e9
                      rw [ccc_go_else]
                      cases blocks with
                      | nil => exact Or.inr rfl
                      | cons b bs =>
                        rw [show blocksAfter (⟨ln, lp, "else"⟩ :: pre) (b :: bs) =
                          blocksAfter pre (.ifB true :: bs) from rfl]
                        exact ih rest (.ifB true :: bs) wd
                    · by_cases e10 : name = "leave"
                      · subst e10
                        rw [ccc_go_leave]
                        cases hA : blocks.any Block.isLoop
                        · exact Or.inr rfl
                        · rw [show blocksAfter (⟨ln, lp, "leave"⟩ :: pre) blocks =
                            blocksAfter pre blocks from rfl]
                          exact ih rest blocks wd
                      · have h1 : is_for_cycle_end name = false := by
                          simp [is_for_cycle_end, e1, e2]
                        have h2 : is_while_cycle_end name = false := by
                          simp [is_while_cycle_end, e3]
                        have h4 : is_for_cycle_begin name = false := by
                          simp [is_for_cycle_begin, e5, e6]
                        have h5 : is_while_cycle_begin name = false := by
                          simp [is_while_cycle_begin, e7]
                        obtain ⟨wd2, hw⟩ :=
                          ccc_go_other ⟨ln, lp, name⟩ (pre ++ rest) blocks wd h1 h2 e4 h4 h5 e8
                            e9 e10
                        rw [hw]
                        have hba : blocksAfter (⟨ln, lp, name⟩ :: pre) blocks =
                            blocksAfter pre blocks := by
                          rw [blocksAfter_cons]
                          by_cases hu : is_user_word (Term.mk ln lp name).name
                          · rw [if_pos hu]
                            rw [show blockStep (Term.mk ln lp name).name blocks = blocks from ?_]
                            unfold blockStep
                            simp [h1, h2, e4, h4, h5, e8, e9]
                          · rw [if_neg hu]
                        rw [hba]
                        exact ih rest blocks wd2

/-- If some token of the stream is a `leave` and the block stack enclosing
its position (as computed by `blocksAfter` on the prefix before it) holds no
loop block, the structural checker fails: either it has already failed
inside the prefix, or it reaches the `leave` with no open loop and the
`assert is_inside_loop` fires. -/
theorem ccc_go_leave_out_of_loop (pre rest : List Term) (t : Term) (blocks0 : List Block)
    (wd : Bool) (hleave : t.name = "leave")
    (hnoloop : ∀ b ∈ blocksAfter pre blocks0, b.isLoop = false) :
    isBad (ccc_go (pre ++ t :: rest) blocks0 wd) = true := by
  rcases ccc_go_append pre (t :: rest) blocks0 wd with ⟨wd2, heq⟩ | hbad
  · rw [heq]
    obtain ⟨ln, lp, name⟩ := t
    rw [show (Term.mk ln lp name).name = name from rfl] at hleave
    subst hleave
    rw [ccc_go_leave]
    have hA : (blocksAfter pre blocks0).any Block.isLoop = false := by
      rw [List.any_eq_false]
      intro b hb
      simp [hnoloop b hb]
    rw [hA]
    rfl
  · exact hbad

/-- `translate` fails whenever the structural checker fails (the checker
runs before lowering). -/
theorem translateTerms_bad_of_check (ts : List Term)
    (h : isBad (code_correctness_check ts) = true) :
    isBad (translateTerms ts) = true := by
  unfold translateTerms
  cases hc : code_correctness_check ts with
  | error e => rfl
  | ok u =>
    rw [hc] at h
    exact absurd h (by simp [isBad])

/-- C2, amended: compilation fails for every token sequence with an
unmatched block close (a prefix whose close-minus-open balance is positive)
and for every token sequence containing a `leave` outside any enclosing
loop (the block stack at the position of the `leave`, recomputed by
`blocksAfter` from the prefix before it, holds no loop block); the
double-`else` / nested-`:` / unclosed-definition fixture compiles. -/
theorem C2_amended (ts1 pre rest : List Term) (t : Term) (n : Nat)
    (h1 : (0 : Int) < closersExcess (ts1.take n))
    (h2 : t.name = "leave")
    (h3 : ∀ b ∈ blocksAfter pre [], b.isLoop = false) :
    isBad (translateTerms ts1) = true ∧
    isBad (translateTerms (pre ++ t :: rest)) = true ∧
    isBad (translateTerms c2okToks) = false := by
  refine ⟨?_, ?_, by decide⟩
  · exact translateTerms_bad_of_check ts1 (ccc_go_excess ts1 [] false ⟨n, by simpa using h1⟩)
  · exact translateTerms_bad_of_check (pre ++ t :: rest)
      (ccc_go_leave_out_of_loop pre rest t [] false h2 h3)

/-- The first variable's offset is 0. -/
theorem offsetsBefore_zero (vars : List (String × List VarRef)) :
    offsetsBefore vars 0 = 0 := by
  simp [offsetsBefore]

/-- Offsets accumulate by the maximal size of each allocated variable. -/
theorem offsetsBefore_succ (e : String × List VarRef) (rest : List (String × List VarRef))
    (i : Nat) :
    offsetsBefore (e :: rest) (i + 1) = maxSize e.2 + offsetsBefore rest i := by
  simp [offsetsBefore, List.take_succ_cons]

/-- A successful back-patch only happens at a non-negative index. -/
theorem patchArg_nonneg (code : List Instruction) (i a : Int) (code2 : List Instruction)
    (h : patchArg code i a = .ok code2) : 0 ≤ i := by
  unfold patchArg at h
  by_cases hi : i < 0
  · rw [if_pos hi] at h
    cases h
  · omega

/-- After a successful back-patch, the patched instruction carries the new
argument. -/
theorem patchArg_get_eq (code : List Instruction) (i a : Int) (code2 : List Instruction)
    (h : patchArg code i a = .ok code2) :
    (code2.get? i.toNat).map Instruction.arg = some (some a) := by
  unfold patchArg at h
  by_cases hi : i < 0
  · rw [if_pos hi] at h
    cases h
  · rw [if_neg hi] at h
    cases hg : code.get? i.toNat with
    | none => rw [hg] at h; cases h
    | some ins =>
      rw [hg] at h
      cases h
      rw [List.get?_set_eq, hg]
      rfl

/-- A back-patch leaves every other index unchanged. -/
theorem patchArg_get_ne (code : List Instruction) (i a : Int) (code2 : List Instruction)
    (k : Nat) (hk : k ≠ i.toNat) (h : patchArg code i a = .ok code2) :
    code2.get? k = code.get? k := by
  unfold patchArg at h
  by_cases hi : i < 0
  · rw [if_pos hi] at h
    cases h
  · rw [if_neg hi] at h
    cases hg : code.get? i.toNat with
    | none => rw [hg] at h; cases h
    | some ins =>
      rw [hg] at h
      cases h
      exact List.get?_set_ne _ _ (Ne.symm hk)

/-- Patching a variable's references preserves an already-patched argument
equal to the same offset. -/
theorem patchVarRefs_keeps (refs : List VarRef) :
    ∀ (code : List Instruction) (off : Int) (code2 : List Instruction) (k : Nat),
    patchVarRefs code off refs = .ok code2 →
    (code.get? k).map Instruction.arg = some (some off) →
    (code2.get? k).map Instruction.arg = some (some off) := by
  induction refs with
  | nil =>
    intro code off code2 k h hk
    cases h
    exact hk
  | cons r rs ih =>
    intro code off code2 k h hk
    unfold patchVarRefs at h
    cases hp : patchArg code r.pc off with
    | error e => rw [hp] at h; cases h
    | ok codeA =>
      rw [hp] at h
      refine ih codeA off code2 k h ?_
      by_cases hkk : k = r.pc.toNat
      · subst hkk
        exact patchArg_get_eq _ _ _ _ hp
      · rw [patchArg_get_ne _ _ _ _ k hkk hp]
        exact hk

/-- After patching a variable's references, each referenced pc carries the
variable's offset. -/
theorem patchVarRefs_get (refs : List VarRef) :
    ∀ (code : List Instruction) (off : Int) (code2 : List Instruction) (r : VarRef),
    patchVarRefs code off refs = .ok code2 → r ∈ refs →
    (code2.get? r.pc.toNat).map Instruction.arg = some (some off) := by
  induction refs with
  | nil =>
    intro code off code2 r h hr
    cases hr
  | cons r0 rs ih =>
    intro code off code2 r h hr
    unfold patchVarRefs at h
    cases hp : patchArg code r0.pc off with
    | error e => rw [hp] at h; cases h
    | ok codeA =>
      rw [hp] at h
      rcases List.mem_cons.mp hr with hr | hr
      · subst hr
        exact patchVarRefs_keeps rs codeA off code2 _ h (patchArg_get_eq _ _ _ _ hp)
      · exact ih codeA off code2 r h hr

/-- A successfully patched reference list only contains non-negative pcs. -/
theorem patchVarRefs_nonneg (refs : List VarRef) :
    ∀ (code : List Instruction) (off : Int) (code2 : List Instruction) (r : VarRef),
    patchVarRefs code off refs = .ok code2 → r ∈ refs → 0 ≤ r.pc := by
  induction refs with
  | nil =>
    intro code off code2 r h hr
    cases hr
  | cons r0 rs ih =>
    intro code off code2 r h hr
    unfold patchVarRefs at h
    cases hp : patchArg code r0.pc off with
    | error e => rw [hp] at h; cases h
    | ok codeA =>
      rw [hp] at h
      rcases List.mem_cons.mp hr with hr | hr
      · subst hr
        exact patchArg_nonneg _ _ _ _ hp
      · exact ih codeA off code2 r h hr

/-- Patching a variable's references leaves unrelated indices unchanged. -/
theorem patchVarRefs_frame (refs : List VarRef) :
    ∀ (code : List Instruction) (off : Int) (code2 : List Instruction) (k : Int),
    patchVarRefs code off refs = .ok code2 → 0 ≤ k → (∀ r ∈ refs, r.pc ≠ k) →
    code2.get? k.toNat = code.get? k.toNat := by
  induction refs with
  | nil =>
    intro code off code2 k h _ _
    cases h
    rfl
  | cons r0 rs ih =>
    intro code off code2 k h hk hne
    unfold patchVarRefs at h
    cases hp : patchArg code r0.pc off with
    | error e => rw [hp] at h; cases h
    | ok codeA =>
      rw [hp] at h
      have h0 : 0 ≤ r0.pc := patchArg_nonneg _ _ _ _ hp
      have hne0 : r0.pc ≠ k := hne r0 (List.mem_cons_self _ _)
      have htn : k.toNat ≠ r0.pc.toNat := by omega
      rw [ih codeA off code2 k h hk (fun r hr => hne r (List.mem_cons_of_mem _ hr))]
      exact patchArg_get_ne _ _ _ _ k.toNat htn hp

/-- The allocation pass leaves indices recorded by no variable unchanged. -/
theorem allocate_vars_frame (vars : List (String × List VarRef)) :
    ∀ (code : List Instruction) (cnt : Int) (code2 : List Instruction) (cnt2 : Int) (k : Int),
    allocate_vars code cnt vars = .ok (code2, cnt2) → 0 ≤ k →
    (∀ e ∈ vars, ∀ r ∈ e.2, r.pc ≠ k) →
    code2.get? k.toNat = code.get? k.toNat := by
  induction vars with
  | nil =>
    intro code cnt code2 cnt2 k h _ _
    cases h
    rfl
  | cons e0 rest ih =>
    intro code cnt code2 cnt2 k h hk hne
    obtain ⟨nm0, refs0⟩ := e0
    unfold allocate_vars at h
    cases hp : patchVarRefs code cnt refs0 with
    | error e => rw [hp] at h; cases h
    | ok codeA =>
      rw [hp] at h
      rw [ih codeA (cnt + maxSize refs0) code2 cnt2 k h hk
        (fun e he r hr => hne e (List.mem_cons_of_mem _ he) r hr)]
      exact patchVarRefs_frame refs0 code cnt codeA k hp hk
        (fun r hr => hne (nm0, refs0) (List.mem_cons_self _ _) r hr)

/-- C10, amended: the allocation pass walks `vars_pcs` in order, and a
recorded reference of the variable at position `i` ends with arg equal to
`count0 + offsetsBefore vars i` (the cumulative sum of the maximal sizes of
the variables before it) — provided no later-allocated variable also
recorded the same pc (which a `name-K` declaration can do, as it records the
pc of the next emitted instruction). -/
theorem C10_amended (vars : List (String × List VarRef)) :
    ∀ (code code2 : List Instruction) (count0 count2 : Int) (i : Nat)
      (nm : String) (refs : List VarRef) (r : VarRef),
    allocate_vars code count0 vars = .ok (code2, count2) →
    vars.get? i = some (nm, refs) →
    r ∈ refs →
    (∀ j e, i < j → vars.get? j = some e → ∀ r2 ∈ e.2, r2.pc ≠ r.pc) →
    (code2.get? r.pc.toNat).map Instruction.arg =
      some (some (count0 + offsetsBefore vars i)) := by
  induction vars with
  | nil =>
    intro code code2 count0 count2 i nm refs r hok hi hr hlater
    simp at hi
  | cons e0 rest ih =>
    intro code code2 count0 count2 i nm refs r hok hi hr hlater
    obtain ⟨nm0, refs0⟩ := e0
    unfold allocate_vars at hok
    cases hp : patchVarRefs code count0 refs0 with
    | error er => rw [hp] at hok; cases hok
    | ok codeA =>
      rw [hp] at hok
      cases i with
      | zero =>
        have hi2 : (nm0, refs0) = (nm, refs) := by
          simpa using hi
        have hrefs : refs0 = refs := congrArg Prod.snd hi2
        subst hrefs
        have hbase := patchVarRefs_get refs0 code count0 codeA r hp hr
        have hr0 : (0 : Int) ≤ r.pc := patchVarRefs_nonneg refs0 code count0 codeA r hp hr
        have hlater2 : ∀ e ∈ rest, ∀ r2 ∈ e.2, r2.pc ≠ r.pc := by
          intro e he r2 hr2
          rcases List.mem_iff_get?.mp he with ⟨j, hj⟩
          refine hlater (j + 1) e (by omega) ?_ r2 hr2
          rw [List.get?_cons_succ]
          exact hj
        have hframe := allocate_vars_frame rest codeA (count0 + maxSize refs0) code2 count2
          r.pc hok hr0 hlater2
        rw [offsetsBefore_zero, add_zero, hframe]
        exact hbase
      | succ i2 =>
        rw [List.get?_cons_succ] at hi
        have hshift : ∀ j e, i2 < j → rest.get? j = some e → ∀ r2 ∈ e.2, r2.pc ≠ r.pc := by
          intro j e hij hj r2 hr2
          refine hlater (j + 1) e (by omega) ?_ r2 hr2
          rw [List.get?_cons_succ]
          exact hj
        have := ih codeA code2 (count0 + maxSize refs0) count2 i2 nm refs r hok hi hr hshift
        rw [offsetsBefore_succ]
        rw [show count0 + (maxSize refs0 + offsetsBefore rest i2) =
          count0 + maxSize refs0 + offsetsBefore rest i2 from by ring]
        exact this

/-- C1, witness for the amended theorem at a concrete machine and schedule. -/
theorem C1_amended_witness :
    do_simulation_step [((0 : Int), (7 : Int))] c1runA =
      SimStepRes.cont (interruption_enter c1runA 7) ∧
    (interruption_enter c1runA 7).cu.data_path.instruction_pointer =
      (memGet c1runA.cu.data_path.data_memory 0).toInt ∧
    (post_write_check fwcState).cu.data_path.instruction_pointer =
      (memGet fwcState.cu.data_path.data_memory 1).toInt :=
  C1_amended [(0, 7)] c1runA fwcState 7 (by decide) (by decide) (by decide)

/-- C3, witness for the amended theorem at a concrete machine and schedule. -/
theorem C3_amended_witness :
    do_simulation_step [((0 : Int), (7 : Int))] inIntState = exec_path inIntState ∧
    (post_write_check fwcState).cu.is_in_interruption = true ∧
    (post_write_check fwcState).cu.data_path.instruction_pointer =
      (memGet fwcState.cu.data_path.data_memory 1).toInt :=
  C3_amended [(0, 7)] inIntState fwcState 7 (by decide) (by decide) (by decide)

/-- C5, witness for the amended theorem at a concrete machine and schedule. -/
theorem C5_amended_witness :
    do_simulation_step [((0 : Int), (7 : Int))] c1runA =
      SimStepRes.cont (interruption_enter c1runA 7) ∧
    (interruption_enter c1runA 7).cu.ticks_counter = c1runA.cu.ticks_counter + 3 ∧
    (post_write_check fwcState).cu.ticks_counter = fwcState.cu.ticks_counter + 3 :=
  C5_amended [(0, 7)] c1runA fwcState 7 (by decide) (by decide) (by decide)

/-- C6, witness for the amended theorem: the first tick of the fixture's
NUMBER instruction completes it and leaves ISN at 1. -/
theorem C6_amended_witness :
    (nteStepCU c6run.cu).data_path.instruction_stage_number = 1 :=
  C6_amended c6run.cu (nteStepCU c6run.cu) (by decide) (by decide)

/-- C2, witness for the amended theorem: a bare `then` (unmatched close)
fails, and `do loop leave` — a `leave` after a completed loop, hence outside
any enclosing loop — fails too, while the double-`else` fixture compiles. -/
theorem C2_amended_witness :
    isBad (translateTerms [tok "then"]) = true ∧
    isBad (translateTerms ([tok "do", tok "loop"] ++ tok "leave" :: [])) = true ∧
    isBad (translateTerms c2okToks) = false :=
  C2_amended [tok "then"] [tok "do", tok "loop"] [] (tok "leave") 1 (by decide) (by decide)
    (by decide)

/-- C10, witness for the amended theorem at a concrete allocation. -/
theorem C10_amended_witness :
    ((c10wCode2 : List Instruction).get? ((⟨1, 2⟩ : VarRef).pc.toNat)).map Instruction.arg =
      some (some ((0 : Int) + offsetsBefore c10wVars 1)) :=
  C10_amended c10wVars c10wCode c10wCode2 0 3 1 "b" [⟨1, 2⟩] ⟨1, 2⟩ (by rfl) (by decide)
    (by decide)
    (by
      intro j e hij hj r2 hr2
      match j, hij with
      | Nat.succ (Nat.succ j), _ => simp [c10wVars] at hj)

end Forthchan
